import Mathlib

/-!
Shallow embedding of "LED Relay 2/main.c" (mikelawrence/LED-Relay).

The program runs on an AVR XMEGA: two edge-interrupt inputs (ACC1 on PORTD,
ACC2 on PORTA), three timer-compare interrupt sources on TCC4 (CCA = ACC1
debounce, CCB = ACC2 debounce, CCC = 1-second tick), and a polling main loop
holding three switch-based state machines (power, stay-on, programming).

Modelling conventions:
- 16-bit timer values (TCC4.CNT, the four start-time anchors) are Nats kept
  below 65536; uint16 subtraction `a - b` is `(a + 65536 - b) % 65536`.
- Event times are unbounded Nats (real elapsed milliseconds); wherever the
  code reads TCC4.CNT we use `t % 65536`.
- A debounce compare channel (TCC4.CCA / TCC4.CCB plus its INTCTRLB enable
  bit) is `armed : Option Nat` holding the real fire time.  The ISR writes
  `CCA = CNT + 50`, so the compare fires exactly 50 ticks after the arming
  edge; we store that fire time directly.
- uint8 arithmetic (`flash_count`, `seconds`, `minutes`) is taken mod 256.
- Each main-loop iteration is one `pollStep`; `continue` in the C source is
  modelled by the Bool "skip the two sub-machines" flag of `powerPhase`.
- EEPROM writes are logged in `persistLog` (newest last) besides updating
  the `eeprom` byte.
-/

/-- enum POWER_SM from main.c. -/
inductive PowerSM
  | reset | down | outOff | outOn | outStayOn | timer
deriving DecidableEq, Repr

/-- enum STAYON_SM from main.c. -/
inductive StayonSM
  | reset | waitOn | waitOff
deriving DecidableEq, Repr

/-- enum PROG_SM from main.c. -/
inductive ProgSM
  | reset | flashOn | flashOff | endOn | endOff | indOn | indOff
deriving DecidableEq, Repr

/-- One debounced input channel: the `accN_last` latched level, the two
start-time anchors (`accN_on_start_time` / `accN_off_start_time`, 16-bit),
and the state of its TCC4 debounce compare (armed fire time, if the compare
interrupt is currently enabled). -/
structure Chan where
  last : Bool
  onStart : Nat
  offStart : Nat
  armed : Option Nat
deriving DecidableEq, Repr

/-- Inputs of one main-loop iteration: the TCC4.CNT snapshot (as unbounded
real time; the code sees `tick % 65536`) and the raw pin reads used by the
SM_POWER_RESET bring-up (`IS_ACC1_ON()` / `IS_ACC2_ON()`). -/
structure Poll where
  tick : Nat
  raw1 : Bool
  raw2 : Bool
deriving DecidableEq, Repr

/-- The complete mutable state of the program: the interrupt-written
globals (channels, seconds, minutes), the main-local variables (the four
duration variables, the three state machine variables, `wait_minutes`,
`flash_count`), the relay output (V1EN/V2EN, always driven together), the
watchdog enable, and the EEPROM byte with a log of the values written. -/
structure SysState where
  chan1 : Chan
  chan2 : Chan
  acc1OnTime : Nat
  acc1OffTime : Nat
  acc2OnTime : Nat
  acc2OffTime : Nat
  power : PowerSM
  stayon : StayonSM
  prog : ProgSM
  flashCount : Nat
  waitMinutes : Nat
  seconds : Nat
  minutes : Nat
  relay : Bool
  wdtOn : Bool
  eeprom : Nat
  persistLog : List Nat
deriving DecidableEq, Repr

/-- The duration computation of the critical section at the top of the
main loop, for one active anchor: uint16 wraparound subtraction of the
anchor from the tick; if the result exceeds 65000 ms (`MAIN_TCNT_FROM_SECONDS(65.0)`)
the duration is clamped to 65000 and the anchor is rewritten to
`tick - 65000` (uint16).  Returns (duration, new anchor). -/
def computeTime (tick anchor : Nat) : Nat × Nat :=
  let d := (tick + 65536 - anchor) % 65536
  if d > 65000 then (65000, (tick + 65536 - 65000) % 65536) else (d, anchor)

/-- Critical-section update for ACC1: recompute the ON time if
`acc1_last` is set, else the OFF time (main.c lines 131-152). -/
def updAcc1 (s : SysState) (c : Nat) : SysState :=
  if s.chan1.last then
    let r := computeTime c s.chan1.onStart
    { s with acc1OnTime := r.1, chan1 := { s.chan1 with onStart := r.2 } }
  else
    let r := computeTime c s.chan1.offStart
    { s with acc1OffTime := r.1, chan1 := { s.chan1 with offStart := r.2 } }

/-- Critical-section update for ACC2 (main.c lines 153-174). -/
def updAcc2 (s : SysState) (c : Nat) : SysState :=
  if s.chan2.last then
    let r := computeTime c s.chan2.onStart
    { s with acc2OnTime := r.1, chan2 := { s.chan2 with onStart := r.2 } }
  else
    let r := computeTime c s.chan2.offStart
    { s with acc2OffTime := r.1, chan2 := { s.chan2 with offStart := r.2 } }

/-- The full `cli()`-protected duration update of one loop iteration. -/
def updateTimes (s : SysState) (c : Nat) : SysState :=
  updAcc2 (updAcc1 s c) c

/-- The power state machine switch (main.c lines 179-438).  The returned
Bool is true when the C code executes `continue`, skipping the stay-on and
programming machines for this iteration (the Down and Timer sleep paths and
the one-time Reset bring-up). -/
def powerPhase (s : SysState) (p : Poll) : SysState × Bool :=
  match s.power with
  | PowerSM.down =>
    if s.chan1.last then
      ({ s with relay := false,
                power := if s.chan2.last then PowerSM.outOn else PowerSM.outOff }, false)
    else
      -- wdt_disable; sleep (power-down); wdt_enable on wake; continue
      ({ s with relay := false, wdtOn := true }, true)
  | PowerSM.outOff =>
    if s.chan1.last then
      if s.chan2.last then ({ s with relay := false, power := PowerSM.outOn }, false)
      else ({ s with relay := false }, false)
    else ({ s with relay := false, power := PowerSM.down }, false)
  | PowerSM.outOn =>
    let r : Bool := if s.prog = ProgSM.indOff then false else true
    if s.chan1.last then
      if s.chan2.last then ({ s with relay := r }, false)
      else ({ s with relay := r, power := PowerSM.outOff }, false)
    else ({ s with relay := r, power := PowerSM.down }, false)
  | PowerSM.outStayOn =>
    let r : Bool := if s.prog = ProgSM.indOff then false else true
    if s.chan1.last then
      if s.chan2.last then ({ s with relay := r }, false)
      else if s.acc2OffTime > 500 then ({ s with relay := r, power := PowerSM.outOff }, false)
      else ({ s with relay := r }, false)
    else
      -- enter Timer: clear minutes/seconds, schedule TCC4.CCC 1 s out
      ({ s with relay := r, power := PowerSM.timer, minutes := 0, seconds := 0 }, false)
  | PowerSM.timer =>
    if s.chan1.last then
      ({ s with relay := true,
                power := if s.chan2.last then PowerSM.outOn else PowerSM.outOff }, false)
    else if s.minutes ≥ s.waitMinutes then
      ({ s with relay := true, power := PowerSM.down }, false)
    else
      -- wdt_disable; sleep (idle); wdt_enable is commented out; continue
      ({ s with relay := true, wdtOn := false }, true)
  | PowerSM.reset =>
    -- one-time bring-up: port/timer init (relay outputs cleared), prime
    -- acc1_last from IS_ACC1_ON(), dispatch on the raw reads, clear the
    -- second counters, load wait_minutes from EEPROM, enable the watchdog,
    -- continue.  Note acc2_last is NOT primed.
    ({ s with relay := false,
              chan1 := { s.chan1 with last := p.raw1 },
              power := if p.raw1 then (if p.raw2 then PowerSM.outOn else PowerSM.outOff)
                       else PowerSM.down,
              seconds := 0, minutes := 0,
              waitMinutes := s.eeprom,
              wdtOn := true }, true)

/-- The StayON state machine switch (main.c lines 449-495).  Runs only when
`acc1_last` is set. -/
def stayonRun (s : SysState) : SysState :=
  match s.stayon with
  | StayonSM.waitOn =>
    if s.acc2OnTime > 3000 then { s with stayon := StayonSM.reset }
    else if s.chan2.last then s
    else { s with stayon := StayonSM.waitOff }
  | StayonSM.waitOff =>
    if s.acc2OffTime > 3000 then { s with stayon := StayonSM.reset }
    else if s.chan2.last then
      { s with stayon := StayonSM.reset, power := PowerSM.outStayOn }
    else s
  | StayonSM.reset =>
    if s.chan1.last then
      if s.chan2.last then { s with stayon := StayonSM.waitOn } else s
    else s

/-- The programming state machine switch (main.c lines 498-635).  Runs only
when `acc1_last` is set.  `flash_count` is a uint8, so the increment wraps
mod 256. -/
def progRun (s : SysState) : SysState :=
  match s.prog with
  | ProgSM.flashOn =>
    if s.acc2OnTime > 3000 then { s with prog := ProgSM.reset }
    else if s.chan2.last then s
    else { s with flashCount := (s.flashCount + 1) % 256, prog := ProgSM.flashOff }
  | ProgSM.flashOff =>
    if s.acc2OffTime > 7000 then { s with prog := ProgSM.reset }
    else if s.chan2.last then
      if s.acc2OffTime > 4000 then { s with prog := ProgSM.endOn }
      else if s.acc2OffTime > 3000 then { s with prog := ProgSM.reset }
      else { s with prog := ProgSM.flashOn }
    else s
  | ProgSM.endOn =>
    if s.acc2OnTime > 7000 then { s with prog := ProgSM.reset }
    else if s.chan2.last then s
    else
      if s.acc2OnTime > 4000 then { s with prog := ProgSM.endOff }
      else { s with prog := ProgSM.reset }
  | ProgSM.endOff =>
    if s.acc2OffTime > 7000 then { s with prog := ProgSM.reset }
    else if s.chan2.last then
      if s.acc2OffTime > 4000 then
        -- protocol confirmed: clamp flash_count to 25, multiply by 10,
        -- write EEPROM, update wait_minutes in RAM, go to IndOn.
        let fc := if s.flashCount > 25 then 25 else s.flashCount
        let v := fc * 10
        { s with flashCount := v, eeprom := v, persistLog := s.persistLog ++ [v],
                 waitMinutes := v, prog := ProgSM.indOn }
      else { s with prog := ProgSM.reset }
    else s
  | ProgSM.indOn =>
    if s.chan2.last then
      if s.acc2OnTime > 2000 then { s with prog := ProgSM.indOff } else s
    else { s with prog := ProgSM.reset }
  | ProgSM.indOff =>
    if s.chan2.last then
      if s.acc2OnTime > 3000 then { s with prog := ProgSM.reset } else s
    else { s with prog := ProgSM.reset }
  | ProgSM.reset =>
    if s.acc1OnTime ≤ 60000 then
      if s.chan2.last then { s with flashCount := 0, prog := ProgSM.flashOn }
      else s
    else s

/-- main.c lines 440-446 followed by the two sub-machines: when `acc1_last`
is clear both sub-machines are reset and the loop restarts; otherwise the
StayON machine runs and then the programming machine. -/
def gatePhase (s : SysState) : SysState :=
  if s.chan1.last then progRun (stayonRun s)
  else { s with stayon := StayonSM.reset, prog := ProgSM.reset }

/-- One full iteration of the main `while (TRUE)` loop: `wdt_reset()` (which
does not change the watchdog enable), the critical-section duration update,
the power state machine, then (unless that path did `continue`) the ACC1
gate and the two sub-machines. -/
def pollStep (s : SysState) (p : Poll) : SysState :=
  let s1 := updateTimes s (p.tick % 65536)
  let r := powerPhase s1 p
  if r.2 then r.1 else gatePhase r.1

/-- The any-edge input-sense ISR body (ISR(PORTD_INT_vect) for ACC1,
ISR(PORTA_INT_vect) for ACC2), applied to one channel at real time `t`:
re-arm the debounce compare at `CNT + 50` ms and latch ON immediately if
the level was OFF, recording the ON anchor. -/
def edgeChan (ch : Chan) (t : Nat) : Chan :=
  if ch.last then { ch with armed := some (t + 50) }
  else { ch with armed := some (t + 50), last := true, onStart := t % 65536 }

/-- The debounce compare ISR body (ISR(TCC4_CCA_vect) / ISR(TCC4_CCB_vect)):
fires only while armed, at the armed time; if the level is ON and the raw
pin reads low, latch OFF and record the OFF anchor at the fire time; in any
case disable the compare interrupt. -/
def expChan (ch : Chan) (raw : Bool) : Chan :=
  match ch.armed with
  | none => ch
  | some f =>
    if ch.last then
      if raw then { ch with armed := none }
      else { ch with armed := none, last := false, offStart := f % 65536 }
    else { ch with armed := none }

/-- The 1-second tick ISR body (ISR(TCC4_CCC_vect)): increment `seconds`
(uint8); at 60, wrap to 0 and increment `minutes` (uint8), saturating
`minutes` at 60. -/
def secTick (s : SysState) : SysState :=
  let sec := (s.seconds + 1) % 256
  if sec = 60 then
    let m := (s.minutes + 1) % 256
    { s with seconds := 0, minutes := if m > 60 then 60 else m }
  else { s with seconds := sec }

/-- The events of a system trace: a main-loop iteration, an ACC1/ACC2 edge
interrupt at a real time, an ACC1/ACC2 debounce-compare fire (with the raw
pin level it reads), and a 1-second tick. -/
inductive Ev
  | poll (p : Poll)
  | edge1 (t : Nat)
  | exp1 (raw : Bool)
  | edge2 (t : Nat)
  | exp2 (raw : Bool)
  | sec
deriving DecidableEq, Repr

/-- Apply one event to the system state. -/
def step (s : SysState) : Ev → SysState
  | Ev.poll p => pollStep s p
  | Ev.edge1 t => { s with chan1 := edgeChan s.chan1 t }
  | Ev.exp1 raw => { s with chan1 := expChan s.chan1 raw }
  | Ev.edge2 t => { s with chan2 := edgeChan s.chan2 t }
  | Ev.exp2 raw => { s with chan2 := expChan s.chan2 raw }
  | Ev.sec => secTick s

/-- Run a trace of events. -/
def run (s : SysState) (evs : List Ev) : SysState := evs.foldl step s

/-- The state at program start: all globals zero-initialized (in particular
`acc1_last` and `acc2_last` are 0/OFF and no compare is armed), the main
locals at their initializers, `wdt_disable()` already executed, and the
EEPROM byte holding `ee` (its factory image is DEFAULT_WAIT_MINUTES = 30). -/
def initState (ee : Nat) : SysState :=
  { chan1 := { last := false, onStart := 0, offStart := 0, armed := none }
    chan2 := { last := false, onStart := 0, offStart := 0, armed := none }
    acc1OnTime := 0, acc1OffTime := 0, acc2OnTime := 0, acc2OffTime := 0
    power := PowerSM.reset, stayon := StayonSM.reset, prog := ProgSM.reset
    flashCount := 0, waitMinutes := 0, seconds := 0, minutes := 0
    relay := false, wdtOn := false, eeprom := ee, persistLog := [] }

/-- The time of the most recent ACC1 edge event in a trace, if any. -/
def lastEdge1 (evs : List Ev) : Option Nat :=
  evs.foldl (fun a e => match e with | Ev.edge1 t => some t | _ => a) none

/-- The time of the most recent ACC2 edge event in a trace, if any. -/
def lastEdge2 (evs : List Ev) : Option Nat :=
  evs.foldl (fun a e => match e with | Ev.edge2 t => some t | _ => a) none

/-- Boot prefix of the programming scenario traces: ACC1 rises at t=5 ms
(edge ISR latches it ON; its debounce compare fires at t=55 with the pin
still high), and the first loop iteration at t=100 performs the one-time
bring-up (raw reads: ACC1 high, ACC2 low). -/
def bootEvs : List Ev := [Ev.edge1 5, Ev.exp1 true, Ev.poll ⟨100, true, false⟩]

/-- One ACC2 flash pulse starting at time `b`: 1 s ON then 1 s OFF, with a
loop iteration in the middle of each phase.  The ON edge latches ACC2 ON at
once; the OFF edge at `b+1000` is confirmed by the debounce compare at
`b+1050` reading the pin low. -/
def pulseEvs (b : Nat) : List Ev :=
  [Ev.edge2 b, Ev.exp2 true, Ev.poll ⟨b + 500, true, false⟩,
   Ev.edge2 (b + 1000), Ev.exp2 false, Ev.poll ⟨b + 1500, true, false⟩]

/-- The confirm suffix of the programming protocol, after the last flash
pulse ended (its OFF run started at `bb - 950`): a 5 s OFF gap, a 5 s ON
press, a 4.5 s OFF gap, then ACC2 ON — every measured gap lies in
(4.0, 7.0] s, so a programming machine sitting in FlashOff walks
EndOn → EndOff → confirm. -/
def confirmEvs (bb : Nat) : List Ev :=
  [Ev.poll ⟨bb + 4000, true, false⟩, Ev.edge2 (bb + 4050), Ev.exp2 true,
   Ev.poll ⟨bb + 4550, true, false⟩,
   Ev.poll ⟨bb + 9000, true, false⟩, Ev.edge2 (bb + 9050), Ev.exp2 false,
   Ev.poll ⟨bb + 9550, true, false⟩,
   Ev.poll ⟨bb + 13500, true, false⟩, Ev.edge2 (bb + 13600), Ev.exp2 true,
   Ev.poll ⟨bb + 14000, true, false⟩]

/-- A complete programming session with ACC1 held ON throughout: boot, `n`
flash pulses (one per 2 s, starting 1 s after boot), then the confirm
sequence. -/
def progTrace (n : Nat) : List Ev :=
  bootEvs ++ ((List.range n).map (fun k => pulseEvs (1000 + 2000 * k))).flatten
    ++ confirmEvs (1000 + 2000 * n)

/-- A block of consecutive flash pulses of the programming scenario:
pulses `a, a+1, ..., a+n-1` of `progTrace`. -/
def chunkEvs (a n : Nat) : List Ev :=
  ((List.range' a n).map (fun k => pulseEvs (1000 + 2000 * k))).flatten

/-- The system state right after the boot prefix of the programming traces
(ACC1 debounced ON since t=5, bring-up done, power OutOff). -/
def midBoot : SysState :=
  { chan1 := { last := true, onStart := 5, offStart := 0, armed := none }
    chan2 := { last := false, onStart := 0, offStart := 0, armed := none }
    acc1OnTime := 95, acc1OffTime := 0, acc2OnTime := 0, acc2OffTime := 100
    power := PowerSM.outOff, stayon := StayonSM.reset, prog := ProgSM.reset
    flashCount := 0, waitMinutes := 30, seconds := 0, minutes := 0
    relay := false, wdtOn := true, eeprom := 30, persistLog := [] }

/-- The system state after the first 50 flash pulses of the 256-pulse
programming scenario. -/
def mid50 : SysState :=
  { chan1 := { last := true, onStart := 500, offStart := 0, armed := none }
    chan2 := { last := false, onStart := 33464, offStart := 34514, armed := none }
    acc1OnTime := 34464, acc1OffTime := 0, acc2OnTime := 500, acc2OffTime := 450
    power := PowerSM.outStayOn, stayon := StayonSM.reset, prog := ProgSM.flashOff
    flashCount := 50, waitMinutes := 30, seconds := 0, minutes := 0
    relay := true, wdtOn := true, eeprom := 30, persistLog := [] }

/-- The system state after 100 flash pulses of the 256-pulse scenario. -/
def mid100 : SysState :=
  { chan1 := { last := true, onStart := 1428, offStart := 0, armed := none }
    chan2 := { last := false, onStart := 2392, offStart := 3442, armed := none }
    acc1OnTime := 2464, acc1OffTime := 0, acc2OnTime := 500, acc2OffTime := 450
    power := PowerSM.outStayOn, stayon := StayonSM.reset, prog := ProgSM.flashOff
    flashCount := 100, waitMinutes := 30, seconds := 0, minutes := 0
    relay := true, wdtOn := true, eeprom := 30, persistLog := [] }

/-- The system state after 150 flash pulses of the 256-pulse scenario. -/
def mid150 : SysState :=
  { chan1 := { last := true, onStart := 1892, offStart := 0, armed := none }
    chan2 := { last := false, onStart := 36856, offStart := 37906, armed := none }
    acc1OnTime := 36464, acc1OffTime := 0, acc2OnTime := 500, acc2OffTime := 450
    power := PowerSM.outStayOn, stayon := StayonSM.reset, prog := ProgSM.flashOff
    flashCount := 150, waitMinutes := 30, seconds := 0, minutes := 0
    relay := true, wdtOn := true, eeprom := 30, persistLog := [] }

/-- The system state after 200 flash pulses of the 256-pulse scenario. -/
def mid200 : SysState :=
  { chan1 := { last := true, onStart := 2820, offStart := 0, armed := none }
    chan2 := { last := false, onStart := 5784, offStart := 6834, armed := none }
    acc1OnTime := 4464, acc1OffTime := 0, acc2OnTime := 500, acc2OffTime := 450
    power := PowerSM.outStayOn, stayon := StayonSM.reset, prog := ProgSM.flashOff
    flashCount := 200, waitMinutes := 30, seconds := 0, minutes := 0
    relay := true, wdtOn := true, eeprom := 30, persistLog := [] }

/-- The system state after 250 flash pulses of the 256-pulse scenario. -/
def mid250 : SysState :=
  { chan1 := { last := true, onStart := 3284, offStart := 0, armed := none }
    chan2 := { last := false, onStart := 40248, offStart := 41298, armed := none }
    acc1OnTime := 38464, acc1OffTime := 0, acc2OnTime := 500, acc2OffTime := 450
    power := PowerSM.outStayOn, stayon := StayonSM.reset, prog := ProgSM.flashOff
    flashCount := 250, waitMinutes := 30, seconds := 0, minutes := 0
    relay := true, wdtOn := true, eeprom := 30, persistLog := [] }

/-- The system state after all 256 flash pulses of the 256-pulse scenario:
the 8-bit flash_count has wrapped to 0. -/
def mid256 : SysState :=
  { chan1 := { last := true, onStart := 3284, offStart := 0, armed := none }
    chan2 := { last := false, onStart := 52248, offStart := 53298, armed := none }
    acc1OnTime := 50464, acc1OffTime := 0, acc2OnTime := 500, acc2OffTime := 450
    power := PowerSM.outStayOn, stayon := StayonSM.reset, prog := ProgSM.flashOff
    flashCount := 0, waitMinutes := 30, seconds := 0, minutes := 0
    relay := true, wdtOn := true, eeprom := 30, persistLog := [] }

/-! ### Preservation lemmas for the phases of one loop iteration -/

@[simp] theorem updAcc1_power (s : SysState) (c : Nat) : (updAcc1 s c).power = s.power := by
  unfold updAcc1; split <;> rfl

@[simp] theorem updAcc1_stayon (s : SysState) (c : Nat) : (updAcc1 s c).stayon = s.stayon := by
  unfold updAcc1; split <;> rfl

@[simp] theorem updAcc1_prog (s : SysState) (c : Nat) : (updAcc1 s c).prog = s.prog := by
  unfold updAcc1; split <;> rfl

@[simp] theorem updAcc1_flashCount (s : SysState) (c : Nat) :
    (updAcc1 s c).flashCount = s.flashCount := by
  unfold updAcc1; split <;> rfl

@[simp] theorem updAcc1_waitMinutes (s : SysState) (c : Nat) :
    (updAcc1 s c).waitMinutes = s.waitMinutes := by
  unfold updAcc1; split <;> rfl

@[simp] theorem updAcc1_seconds (s : SysState) (c : Nat) : (updAcc1 s c).seconds = s.seconds := by
  unfold updAcc1; split <;> rfl

@[simp] theorem updAcc1_minutes (s : SysState) (c : Nat) : (updAcc1 s c).minutes = s.minutes := by
  unfold updAcc1; split <;> rfl

@[simp] theorem updAcc1_relay (s : SysState) (c : Nat) : (updAcc1 s c).relay = s.relay := by
  unfold updAcc1; split <;> rfl

@[simp] theorem updAcc1_wdtOn (s : SysState) (c : Nat) : (updAcc1 s c).wdtOn = s.wdtOn := by
  unfold updAcc1; split <;> rfl

@[simp] theorem updAcc1_eeprom (s : SysState) (c : Nat) : (updAcc1 s c).eeprom = s.eeprom := by
  unfold updAcc1; split <;> rfl

@[simp] theorem updAcc1_persistLog (s : SysState) (c : Nat) :
    (updAcc1 s c).persistLog = s.persistLog := by
  unfold updAcc1; split <;> rfl

@[simp] theorem updAcc1_chan2 (s : SysState) (c : Nat) : (updAcc1 s c).chan2 = s.chan2 := by
  unfold updAcc1; split <;> rfl

@[simp] theorem updAcc1_chan1_last (s : SysState) (c : Nat) :
    (updAcc1 s c).chan1.last = s.chan1.last := by
  unfold updAcc1; split <;> rfl

@[simp] theorem updAcc1_chan1_armed (s : SysState) (c : Nat) :
    (updAcc1 s c).chan1.armed = s.chan1.armed := by
  unfold updAcc1; split <;> rfl

@[simp] theorem updAcc1_acc2OnTime (s : SysState) (c : Nat) :
    (updAcc1 s c).acc2OnTime = s.acc2OnTime := by
  unfold updAcc1; split <;> rfl

@[simp] theorem updAcc1_acc2OffTime (s : SysState) (c : Nat) :
    (updAcc1 s c).acc2OffTime = s.acc2OffTime := by
  unfold updAcc1; split <;> rfl

@[simp] theorem updAcc2_power (s : SysState) (c : Nat) : (updAcc2 s c).power = s.power := by
  unfold updAcc2; split <;> rfl

@[simp] theorem updAcc2_stayon (s : SysState) (c : Nat) : (updAcc2 s c).stayon = s.stayon := by
  unfold updAcc2; split <;> rfl

@[simp] theorem updAcc2_prog (s : SysState) (c : Nat) : (updAcc2 s c).prog = s.prog := by
  unfold updAcc2; split <;> rfl

@[simp] theorem updAcc2_flashCount (s : SysState) (c : Nat) :
    (updAcc2 s c).flashCount = s.flashCount := by
  unfold updAcc2; split <;> rfl

@[simp] theorem updAcc2_waitMinutes (s : SysState) (c : Nat) :
    (updAcc2 s c).waitMinutes = s.waitMinutes := by
  unfold updAcc2; split <;> rfl

@[simp] theorem updAcc2_seconds (s : SysState) (c : Nat) : (updAcc2 s c).seconds = s.seconds := by
  unfold updAcc2; split <;> rfl

@[simp] theorem updAcc2_minutes (s : SysState) (c : Nat) : (updAcc2 s c).minutes = s.minutes := by
  unfold updAcc2; split <;> rfl

@[simp] theorem updAcc2_relay (s : SysState) (c : Nat) : (updAcc2 s c).relay = s.relay := by
  unfold updAcc2; split <;> rfl

@[simp] theorem updAcc2_wdtOn (s : SysState) (c : Nat) : (updAcc2 s c).wdtOn = s.wdtOn := by
  unfold updAcc2; split <;> rfl

@[simp] theorem updAcc2_eeprom (s : SysState) (c : Nat) : (updAcc2 s c).eeprom = s.eeprom := by
  unfold updAcc2; split <;> rfl

@[simp] theorem updAcc2_persistLog (s : SysState) (c : Nat) :
    (updAcc2 s c).persistLog = s.persistLog := by
  unfold updAcc2; split <;> rfl

@[simp] theorem updAcc2_chan1 (s : SysState) (c : Nat) : (updAcc2 s c).chan1 = s.chan1 := by
  unfold updAcc2; split <;> rfl

@[simp] theorem updAcc2_chan2_last (s : SysState) (c : Nat) :
    (updAcc2 s c).chan2.last = s.chan2.last := by
  unfold updAcc2; split <;> rfl

@[simp] theorem updAcc2_chan2_armed (s : SysState) (c : Nat) :
    (updAcc2 s c).chan2.armed = s.chan2.armed := by
  unfold updAcc2; split <;> rfl

@[simp] theorem updAcc2_acc1OnTime (s : SysState) (c : Nat) :
    (updAcc2 s c).acc1OnTime = s.acc1OnTime := by
  unfold updAcc2; split <;> rfl

@[simp] theorem updAcc2_acc1OffTime (s : SysState) (c : Nat) :
    (updAcc2 s c).acc1OffTime = s.acc1OffTime := by
  unfold updAcc2; split <;> rfl

theorem updateTimes_power (s : SysState) (c : Nat) : (updateTimes s c).power = s.power := by
  simp [updateTimes]

theorem updateTimes_stayon (s : SysState) (c : Nat) : (updateTimes s c).stayon = s.stayon := by
  simp [updateTimes]

theorem updateTimes_prog (s : SysState) (c : Nat) : (updateTimes s c).prog = s.prog := by
  simp [updateTimes]

theorem updateTimes_flashCount (s : SysState) (c : Nat) :
    (updateTimes s c).flashCount = s.flashCount := by
  simp [updateTimes]

theorem updateTimes_waitMinutes (s : SysState) (c : Nat) :
    (updateTimes s c).waitMinutes = s.waitMinutes := by
  simp [updateTimes]

theorem updateTimes_minutes (s : SysState) (c : Nat) :
    (updateTimes s c).minutes = s.minutes := by
  simp [updateTimes]

theorem updateTimes_wdtOn (s : SysState) (c : Nat) : (updateTimes s c).wdtOn = s.wdtOn := by
  simp [updateTimes]

theorem updateTimes_eeprom (s : SysState) (c : Nat) : (updateTimes s c).eeprom = s.eeprom := by
  simp [updateTimes]

theorem updateTimes_persistLog (s : SysState) (c : Nat) :
    (updateTimes s c).persistLog = s.persistLog := by
  simp [updateTimes]

theorem updateTimes_chan1_last (s : SysState) (c : Nat) :
    (updateTimes s c).chan1.last = s.chan1.last := by
  simp [updateTimes]

theorem updateTimes_chan2_last (s : SysState) (c : Nat) :
    (updateTimes s c).chan2.last = s.chan2.last := by
  simp [updateTimes]

theorem updateTimes_chan1_armed (s : SysState) (c : Nat) :
    (updateTimes s c).chan1.armed = s.chan1.armed := by
  simp [updateTimes]

theorem updateTimes_chan2_armed (s : SysState) (c : Nat) :
    (updateTimes s c).chan2.armed = s.chan2.armed := by
  simp [updateTimes]

theorem updateTimes_acc1OnTime_on (s : SysState) (c : Nat) (h : s.chan1.last = true) :
    (updateTimes s c).acc1OnTime = (computeTime c s.chan1.onStart).1 := by
  simp [updateTimes, updAcc1, h]

theorem updateTimes_acc2OnTime_on (s : SysState) (c : Nat) (h : s.chan2.last = true) :
    (updateTimes s c).acc2OnTime = (computeTime c s.chan2.onStart).1 := by
  simp [updateTimes, updAcc2, h]

theorem updateTimes_acc2OnTime_off (s : SysState) (c : Nat) (h : s.chan2.last = false) :
    (updateTimes s c).acc2OnTime = s.acc2OnTime := by
  simp [updateTimes, updAcc2, h]

theorem updateTimes_acc1OffTime_off (s : SysState) (c : Nat) (h : s.chan1.last = false) :
    (updateTimes s c).acc1OffTime = (computeTime c s.chan1.offStart).1 := by
  simp [updateTimes, updAcc1, h]

theorem updateTimes_acc2OffTime_off (s : SysState) (c : Nat) (h : s.chan2.last = false) :
    (updateTimes s c).acc2OffTime = (computeTime c s.chan2.offStart).1 := by
  simp [updateTimes, updAcc2, h]

theorem updateTimes_acc2OffTime_on (s : SysState) (c : Nat) (h : s.chan2.last = true) :
    (updateTimes s c).acc2OffTime = s.acc2OffTime := by
  simp [updateTimes, updAcc2, h]

theorem stayonRun_prog (s : SysState) : (stayonRun s).prog = s.prog := by
  unfold stayonRun; repeat' split
  all_goals rfl

theorem stayonRun_flashCount (s : SysState) : (stayonRun s).flashCount = s.flashCount := by
  unfold stayonRun; repeat' split
  all_goals rfl

theorem stayonRun_waitMinutes (s : SysState) : (stayonRun s).waitMinutes = s.waitMinutes := by
  unfold stayonRun; repeat' split
  all_goals rfl

theorem stayonRun_minutes (s : SysState) : (stayonRun s).minutes = s.minutes := by
  unfold stayonRun; repeat' split
  all_goals rfl

theorem stayonRun_relay (s : SysState) : (stayonRun s).relay = s.relay := by
  unfold stayonRun; repeat' split
  all_goals rfl

theorem stayonRun_wdtOn (s : SysState) : (stayonRun s).wdtOn = s.wdtOn := by
  unfold stayonRun; repeat' split
  all_goals rfl

theorem stayonRun_eeprom (s : SysState) : (stayonRun s).eeprom = s.eeprom := by
  unfold stayonRun; repeat' split
  all_goals rfl

theorem stayonRun_persistLog (s : SysState) : (stayonRun s).persistLog = s.persistLog := by
  unfold stayonRun; repeat' split
  all_goals rfl

theorem stayonRun_chan1 (s : SysState) : (stayonRun s).chan1 = s.chan1 := by
  unfold stayonRun; repeat' split
  all_goals rfl

theorem stayonRun_chan2 (s : SysState) : (stayonRun s).chan2 = s.chan2 := by
  unfold stayonRun; repeat' split
  all_goals rfl

theorem stayonRun_acc1OnTime (s : SysState) : (stayonRun s).acc1OnTime = s.acc1OnTime := by
  unfold stayonRun; repeat' split
  all_goals rfl

theorem stayonRun_acc2OnTime (s : SysState) : (stayonRun s).acc2OnTime = s.acc2OnTime := by
  unfold stayonRun; repeat' split
  all_goals rfl

theorem stayonRun_acc2OffTime (s : SysState) : (stayonRun s).acc2OffTime = s.acc2OffTime := by
  unfold stayonRun; repeat' split
  all_goals rfl

theorem progRun_stayon (s : SysState) : (progRun s).stayon = s.stayon := by
  unfold progRun; repeat' split
  all_goals rfl

theorem progRun_power (s : SysState) : (progRun s).power = s.power := by
  unfold progRun; repeat' split
  all_goals rfl

theorem progRun_minutes (s : SysState) : (progRun s).minutes = s.minutes := by
  unfold progRun; repeat' split
  all_goals rfl

theorem progRun_relay (s : SysState) : (progRun s).relay = s.relay := by
  unfold progRun; repeat' split
  all_goals rfl

theorem progRun_wdtOn (s : SysState) : (progRun s).wdtOn = s.wdtOn := by
  unfold progRun; repeat' split
  all_goals rfl

theorem progRun_chan1 (s : SysState) : (progRun s).chan1 = s.chan1 := by
  unfold progRun; repeat' split
  all_goals rfl

theorem progRun_chan2 (s : SysState) : (progRun s).chan2 = s.chan2 := by
  unfold progRun; repeat' split
  all_goals rfl

theorem powerPhase_prog (s : SysState) (p : Poll) : ((powerPhase s p).1).prog = s.prog := by
  unfold powerPhase; repeat' split
  all_goals rfl

theorem powerPhase_stayon (s : SysState) (p : Poll) : ((powerPhase s p).1).stayon = s.stayon := by
  unfold powerPhase; repeat' split
  all_goals rfl

theorem powerPhase_flashCount (s : SysState) (p : Poll) :
    ((powerPhase s p).1).flashCount = s.flashCount := by
  unfold powerPhase; repeat' split
  all_goals rfl

theorem powerPhase_eeprom (s : SysState) (p : Poll) : ((powerPhase s p).1).eeprom = s.eeprom := by
  unfold powerPhase; repeat' split
  all_goals rfl

theorem powerPhase_persistLog (s : SysState) (p : Poll) :
    ((powerPhase s p).1).persistLog = s.persistLog := by
  unfold powerPhase; repeat' split
  all_goals rfl

theorem powerPhase_chan2 (s : SysState) (p : Poll) : ((powerPhase s p).1).chan2 = s.chan2 := by
  unfold powerPhase; repeat' split
  all_goals rfl

theorem powerPhase_chan1_armed (s : SysState) (p : Poll) :
    ((powerPhase s p).1).chan1.armed = s.chan1.armed := by
  unfold powerPhase; repeat' split
  all_goals rfl

theorem powerPhase_acc1OnTime (s : SysState) (p : Poll) :
    ((powerPhase s p).1).acc1OnTime = s.acc1OnTime := by
  unfold powerPhase; repeat' split
  all_goals rfl

theorem powerPhase_acc2OnTime (s : SysState) (p : Poll) :
    ((powerPhase s p).1).acc2OnTime = s.acc2OnTime := by
  unfold powerPhase; repeat' split
  all_goals rfl

theorem powerPhase_acc2OffTime (s : SysState) (p : Poll) :
    ((powerPhase s p).1).acc2OffTime = s.acc2OffTime := by
  unfold powerPhase; repeat' split
  all_goals rfl

theorem powerPhase_chan1_of_ne_reset (s : SysState) (p : Poll)
    (h : s.power ≠ PowerSM.reset) : ((powerPhase s p).1).chan1 = s.chan1 := by
  unfold powerPhase
  cases hp : s.power <;> simp_all <;> (repeat' split) <;> rfl

theorem gatePhase_chan1 (s : SysState) : (gatePhase s).chan1 = s.chan1 := by
  unfold gatePhase; split
  · rw [progRun_chan1, stayonRun_chan1]
  · rfl

theorem gatePhase_chan2 (s : SysState) : (gatePhase s).chan2 = s.chan2 := by
  unfold gatePhase; split
  · rw [progRun_chan2, stayonRun_chan2]
  · rfl

theorem gatePhase_relay (s : SysState) : (gatePhase s).relay = s.relay := by
  unfold gatePhase; split
  · rw [progRun_relay, stayonRun_relay]
  · rfl

theorem gatePhase_wdtOn (s : SysState) : (gatePhase s).wdtOn = s.wdtOn := by
  unfold gatePhase; split
  · rw [progRun_wdtOn, stayonRun_wdtOn]
  · rfl

theorem gatePhase_minutes (s : SysState) : (gatePhase s).minutes = s.minutes := by
  unfold gatePhase; split
  · rw [progRun_minutes, stayonRun_minutes]
  · rfl

theorem powerPhase_power_ne_reset (s : SysState) (p : Poll) :
    ((powerPhase s p).1).power ≠ PowerSM.reset := by
  unfold powerPhase; (repeat' split) <;> simp_all

theorem stayonRun_power_ne_reset (s : SysState) (h : s.power ≠ PowerSM.reset) :
    (stayonRun s).power ≠ PowerSM.reset := by
  unfold stayonRun; (repeat' split) <;> simp_all

theorem gatePhase_power_ne_reset (s : SysState) (h : s.power ≠ PowerSM.reset) :
    (gatePhase s).power ≠ PowerSM.reset := by
  unfold gatePhase; split
  · rw [progRun_power]; exact stayonRun_power_ne_reset _ h
  · exact h

theorem pollStep_power_ne_reset (s : SysState) (p : Poll) :
    (pollStep s p).power ≠ PowerSM.reset := by
  simp only [pollStep]; split
  · exact powerPhase_power_ne_reset _ _
  · exact gatePhase_power_ne_reset _ (powerPhase_power_ne_reset _ _)

theorem pollStep_chan1_armed (s : SysState) (p : Poll) :
    (pollStep s p).chan1.armed = s.chan1.armed := by
  simp only [pollStep]; split
  · rw [powerPhase_chan1_armed, updateTimes_chan1_armed]
  · rw [gatePhase_chan1, powerPhase_chan1_armed, updateTimes_chan1_armed]

theorem pollStep_chan2_armed (s : SysState) (p : Poll) :
    (pollStep s p).chan2.armed = s.chan2.armed := by
  simp only [pollStep]; split
  · rw [powerPhase_chan2]; exact updateTimes_chan2_armed s _
  · rw [gatePhase_chan2, powerPhase_chan2]; exact updateTimes_chan2_armed s _

theorem pollStep_chan2_last (s : SysState) (p : Poll) :
    (pollStep s p).chan2.last = s.chan2.last := by
  simp only [pollStep]; split
  · rw [powerPhase_chan2]; exact updateTimes_chan2_last s _
  · rw [gatePhase_chan2, powerPhase_chan2]; exact updateTimes_chan2_last s _

theorem pollStep_chan1_last_of_ne_reset (s : SysState) (p : Poll)
    (h : s.power ≠ PowerSM.reset) : (pollStep s p).chan1.last = s.chan1.last := by
  have h1 : (updateTimes s (p.tick % 65536)).power ≠ PowerSM.reset := by
    rw [updateTimes_power]; exact h
  simp only [pollStep]; split
  · rw [powerPhase_chan1_of_ne_reset _ _ h1, updateTimes_chan1_last]
  · rw [gatePhase_chan1, powerPhase_chan1_of_ne_reset _ _ h1, updateTimes_chan1_last]

theorem computeTime_fst_le (t a : Nat) : (computeTime t a).1 ≤ 65000 := by
  simp only [computeTime]; split
  · simp
  · simp_all

theorem stayonRun_power_of_not_acc2 (s : SysState) (h : s.chan2.last = false) :
    (stayonRun s).power = s.power := by
  unfold stayonRun; (repeat' split) <;> simp_all

theorem stayonRun_power_eq_or (s : SysState) :
    (stayonRun s).power = s.power ∨ (stayonRun s).power = PowerSM.outStayOn := by
  unfold stayonRun; (repeat' split) <;> simp_all

@[simp] theorem secTick_power (s : SysState) : (secTick s).power = s.power := by
  simp only [secTick]; (repeat' split) <;> rfl

@[simp] theorem secTick_stayon (s : SysState) : (secTick s).stayon = s.stayon := by
  simp only [secTick]; (repeat' split) <;> rfl

@[simp] theorem secTick_prog (s : SysState) : (secTick s).prog = s.prog := by
  simp only [secTick]; (repeat' split) <;> rfl

@[simp] theorem secTick_waitMinutes (s : SysState) : (secTick s).waitMinutes = s.waitMinutes := by
  simp only [secTick]; (repeat' split) <;> rfl

@[simp] theorem secTick_relay (s : SysState) : (secTick s).relay = s.relay := by
  simp only [secTick]; (repeat' split) <;> rfl

@[simp] theorem secTick_wdtOn (s : SysState) : (secTick s).wdtOn = s.wdtOn := by
  simp only [secTick]; (repeat' split) <;> rfl

@[simp] theorem secTick_chan1 (s : SysState) : (secTick s).chan1 = s.chan1 := by
  simp only [secTick]; (repeat' split) <;> rfl

@[simp] theorem secTick_chan2 (s : SysState) : (secTick s).chan2 = s.chan2 := by
  simp only [secTick]; (repeat' split) <;> rfl

theorem secTick_minutes_le (s : SysState) (h : s.minutes ≤ 60) :
    (secTick s).minutes ≤ 60 := by
  simp only [secTick]; (repeat' split) <;> simp_all

theorem powerPhase_minutes_or (s : SysState) (p : Poll) :
    ((powerPhase s p).1).minutes = s.minutes ∨ ((powerPhase s p).1).minutes = 0 := by
  unfold powerPhase; (repeat' split) <;> simp

theorem pollStep_minutes_le (s : SysState) (p : Poll) (h : s.minutes ≤ 60) :
    (pollStep s p).minutes ≤ 60 := by
  simp only [pollStep]; split
  · rcases powerPhase_minutes_or (updateTimes s (p.tick % 65536)) p with hq | hq <;>
      simp_all [updateTimes_minutes]
  · rw [gatePhase_minutes]
    rcases powerPhase_minutes_or (updateTimes s (p.tick % 65536)) p with hq | hq <;>
      simp_all [updateTimes_minutes]

theorem run_minutes_le (evs : List Ev) (s : SysState) (h : s.minutes ≤ 60) :
    (run s evs).minutes ≤ 60 := by
  induction evs generalizing s with
  | nil => exact h
  | cons e rest ih =>
    refine ih (step s e) ?_
    cases e with
    | poll p => exact pollStep_minutes_le s p h
    | edge1 t => simpa [step] using h
    | exp1 raw => simpa [step] using h
    | edge2 t => simpa [step] using h
    | exp2 raw => simpa [step] using h
    | sec => exact secTick_minutes_le s h

theorem edgeChan_armed (ch : Chan) (t : Nat) : (edgeChan ch t).armed = some (t + 50) := by
  unfold edgeChan; split <;> rfl

theorem edgeChan_last (ch : Chan) (t : Nat) : (edgeChan ch t).last = true := by
  unfold edgeChan; split <;> simp_all

theorem edgeChan_on (ch : Chan) (t : Nat) (h : ch.last = false) :
    (edgeChan ch t).last = true ∧ (edgeChan ch t).onStart = t % 65536 := by
  unfold edgeChan; simp [h]

theorem expChan_armed (ch : Chan) (raw : Bool) : (expChan ch raw).armed = none := by
  cases h : ch.armed with
  | none => simp only [expChan, h]
  | some f => simp only [expChan, h]; split <;> (try split) <;> rfl

theorem expChan_true_last (ch : Chan) : (expChan ch true).last = ch.last := by
  cases h : ch.armed with
  | none => simp only [expChan, h]
  | some f => simp only [expChan, h]; split <;> rfl

theorem expChan_true_onStart (ch : Chan) : (expChan ch true).onStart = ch.onStart := by
  cases h : ch.armed with
  | none => simp only [expChan, h]
  | some f => simp only [expChan, h]; split <;> rfl

theorem expChan_true_offStart (ch : Chan) : (expChan ch true).offStart = ch.offStart := by
  cases h : ch.armed with
  | none => simp only [expChan, h]
  | some f => simp only [expChan, h]; split <;> rfl

theorem expChan_fire (ch : Chan) (f : Nat) (h : ch.armed = some f) (hl : ch.last = true) :
    (expChan ch false).last = false ∧ (expChan ch false).offStart = f % 65536 := by
  simp only [expChan, h, hl]; constructor <;> rfl

theorem expChan_of_none (ch : Chan) (raw : Bool) (h : ch.armed = none) :
    expChan ch raw = ch := by
  simp only [expChan, h]

theorem armedInv1_aux (evs : List Ev) (s : SysState) (le : Option Nat)
    (h : ∀ f, s.chan1.armed = some f → ∃ tE, le = some tE ∧ f = tE + 50) :
    ∀ f, (run s evs).chan1.armed = some f →
      ∃ tE, (evs.foldl (fun a e => match e with | Ev.edge1 t => some t | _ => a) le) = some tE
        ∧ f = tE + 50 := by
  induction evs generalizing s le with
  | nil => exact h
  | cons e rest ih =>
    refine ih (step s e) _ ?_
    intro f hf
    cases e with
    | poll p =>
      simp only [step] at hf
      rw [pollStep_chan1_armed] at hf
      exact h f hf
    | edge1 t =>
      rw [show (step s (Ev.edge1 t)).chan1 = edgeChan s.chan1 t from rfl, edgeChan_armed] at hf
      exact ⟨t, rfl, by injection hf with hq; omega⟩
    | exp1 raw =>
      rw [show (step s (Ev.exp1 raw)).chan1 = expChan s.chan1 raw from rfl, expChan_armed] at hf
      cases hf
    | edge2 t => exact h f hf
    | exp2 raw => exact h f hf
    | sec =>
      rw [show (step s Ev.sec).chan1 = (secTick s).chan1 from rfl, secTick_chan1] at hf
      exact h f hf

theorem armedInv2_aux (evs : List Ev) (s : SysState) (le : Option Nat)
    (h : ∀ f, s.chan2.armed = some f → ∃ tE, le = some tE ∧ f = tE + 50) :
    ∀ f, (run s evs).chan2.armed = some f →
      ∃ tE, (evs.foldl (fun a e => match e with | Ev.edge2 t => some t | _ => a) le) = some tE
        ∧ f = tE + 50 := by
  induction evs generalizing s le with
  | nil => exact h
  | cons e rest ih =>
    refine ih (step s e) _ ?_
    intro f hf
    cases e with
    | poll p =>
      simp only [step] at hf
      rw [pollStep_chan2_armed] at hf
      exact h f hf
    | edge2 t =>
      rw [show (step s (Ev.edge2 t)).chan2 = edgeChan s.chan2 t from rfl, edgeChan_armed] at hf
      exact ⟨t, rfl, by injection hf with hq; omega⟩
    | exp2 raw =>
      rw [show (step s (Ev.exp2 raw)).chan2 = expChan s.chan2 raw from rfl, expChan_armed] at hf
      cases hf
    | edge1 t => exact h f hf
    | exp1 raw => exact h f hf
    | sec =>
      rw [show (step s Ev.sec).chan2 = (secTick s).chan2 from rfl, secTick_chan2] at hf
      exact h f hf

theorem onlyExpiry1 (s : SysState) (e : Ev) (hr : s.power ≠ PowerSM.reset)
    (hl : s.chan1.last = true) (hoff : (step s e).chan1.last = false) :
    e = Ev.exp1 false ∧ s.chan1.armed ≠ none
      ∧ (step s e).chan1.offStart = (Option.getD s.chan1.armed 0) % 65536 := by
  cases e with
  | poll p =>
    simp only [step] at hoff
    rw [pollStep_chan1_last_of_ne_reset s p hr] at hoff
    simp_all
  | edge1 t =>
    rw [show (step s (Ev.edge1 t)).chan1 = edgeChan s.chan1 t from rfl, edgeChan_last] at hoff
    cases hoff
  | exp1 raw =>
    cases raw with
    | true =>
      rw [show (step s (Ev.exp1 true)).chan1 = expChan s.chan1 true from rfl,
        expChan_true_last] at hoff
      simp_all
    | false =>
      cases h : s.chan1.armed with
      | none =>
        rw [show (step s (Ev.exp1 false)).chan1 = expChan s.chan1 false from rfl,
          expChan_of_none _ _ h] at hoff
        simp_all
      | some f =>
        refine ⟨rfl, by simp [h], ?_⟩
        rw [show (step s (Ev.exp1 false)).chan1 = expChan s.chan1 false from rfl,
          (expChan_fire s.chan1 f h hl).2]
        simp [h]
  | edge2 t => simp_all [step]
  | exp2 raw => simp_all [step]
  | sec =>
    rw [show (step s Ev.sec).chan1 = (secTick s).chan1 from rfl, secTick_chan1] at hoff
    simp_all

theorem powerPhase_snd_false (s : SysState) (p : Poll) (hr : s.power ≠ PowerSM.reset)
    (h1 : s.chan1.last = true) : (powerPhase s p).2 = false := by
  unfold powerPhase; (repeat' split) <;> simp_all

theorem powerPhase_snd_false_out (s : SysState) (p : Poll)
    (hp : s.power = PowerSM.outOff ∨ s.power = PowerSM.outOn ∨ s.power = PowerSM.outStayOn) :
    (powerPhase s p).2 = false := by
  unfold powerPhase; (repeat' split) <;> simp_all

theorem powerPhase_power_awake (s : SysState) (p : Poll) (hr : s.power ≠ PowerSM.reset)
    (h1 : s.chan1.last = true) :
    ((powerPhase s p).1).power = PowerSM.outOn ∨ ((powerPhase s p).1).power = PowerSM.outOff
      ∨ ((powerPhase s p).1).power = PowerSM.outStayOn := by
  unfold powerPhase; (repeat' split) <;> simp_all

theorem powerPhase_waitMinutes_of_ne_reset (s : SysState) (p : Poll)
    (hr : s.power ≠ PowerSM.reset) : ((powerPhase s p).1).waitMinutes = s.waitMinutes := by
  unfold powerPhase; (repeat' split) <;> simp_all

theorem pollStep_gate_eq (s : SysState) (p : Poll) (hr : s.power ≠ PowerSM.reset)
    (h1 : s.chan1.last = true) :
    pollStep s p
      = progRun (stayonRun ((powerPhase (updateTimes s (p.tick % 65536)) p).1)) := by
  have hu : (updateTimes s (p.tick % 65536)).power = s.power := updateTimes_power s _
  have hsnd : (powerPhase (updateTimes s (p.tick % 65536)) p).2 = false :=
    powerPhase_snd_false _ p (by rw [hu]; exact hr) (by rw [updateTimes_chan1_last]; exact h1)
  have hc1 : ((powerPhase (updateTimes s (p.tick % 65536)) p).1).chan1.last = true := by
    rw [powerPhase_chan1_of_ne_reset _ p (by rw [hu]; exact hr), updateTimes_chan1_last]
    exact h1
  simp only [pollStep, hsnd, Bool.false_eq_true, if_false, gatePhase, hc1, if_true, ite_true]

theorem pollStep_power_awake (s : SysState) (p : Poll) (hr : s.power ≠ PowerSM.reset)
    (h1 : s.chan1.last = true) :
    (pollStep s p).power = PowerSM.outOn ∨ (pollStep s p).power = PowerSM.outOff
      ∨ (pollStep s p).power = PowerSM.outStayOn := by
  rw [pollStep_gate_eq s p hr h1, progRun_power]
  have hu : (updateTimes s (p.tick % 65536)).power = s.power := updateTimes_power s _
  rcases stayonRun_power_eq_or ((powerPhase (updateTimes s (p.tick % 65536)) p).1) with hq | hq
  · rw [hq]
    exact powerPhase_power_awake _ p (by rw [hu]; exact hr)
      (by rw [updateTimes_chan1_last]; exact h1)
  · exact Or.inr (Or.inr hq)

theorem gatePhase_stayon_of_off (x : SysState) (h : x.chan1.last = false) :
    (gatePhase x).stayon = StayonSM.reset := by
  unfold gatePhase; simp [h]

theorem gatePhase_prog_of_off (x : SysState) (h : x.chan1.last = false) :
    (gatePhase x).prog = ProgSM.reset := by
  unfold gatePhase; simp [h]

theorem stayonRun_reset_go (x : SysState) (hs : x.stayon = StayonSM.reset)
    (h1 : x.chan1.last = true) (h2 : x.chan2.last = true) :
    (stayonRun x).stayon = StayonSM.waitOn := by
  unfold stayonRun; simp [hs, h1, h2]

theorem stayonRun_waitOn_abort (x : SysState) (hs : x.stayon = StayonSM.waitOn)
    (ht : x.acc2OnTime > 3000) : (stayonRun x).stayon = StayonSM.reset := by
  unfold stayonRun; simp [hs, ht]

theorem stayonRun_waitOn_to_off (x : SysState) (hs : x.stayon = StayonSM.waitOn)
    (ht : ¬x.acc2OnTime > 3000) (h2 : x.chan2.last = false) :
    (stayonRun x).stayon = StayonSM.waitOff := by
  unfold stayonRun; simp [hs, ht, h2]

theorem stayonRun_waitOff_abort (x : SysState) (hs : x.stayon = StayonSM.waitOff)
    (ht : x.acc2OffTime > 3000) : (stayonRun x).stayon = StayonSM.reset := by
  unfold stayonRun; simp [hs, ht]

theorem stayonRun_waitOff_success (x : SysState) (hs : x.stayon = StayonSM.waitOff)
    (ht : ¬x.acc2OffTime > 3000) (h2 : x.chan2.last = true) :
    (stayonRun x).stayon = StayonSM.reset ∧ (stayonRun x).power = PowerSM.outStayOn := by
  unfold stayonRun; constructor <;> simp [hs, ht, h2]

theorem progRun_reset_start (x : SysState) (hp : x.prog = ProgSM.reset)
    (hw : x.acc1OnTime ≤ 60000) (h2 : x.chan2.last = true) :
    (progRun x).prog = ProgSM.flashOn ∧ (progRun x).flashCount = 0 := by
  unfold progRun; constructor <;> simp [hp, hw, h2]

theorem progRun_reset_stay (x : SysState) (hp : x.prog = ProgSM.reset)
    (h : ¬(x.acc1OnTime ≤ 60000 ∧ x.chan2.last = true)) : progRun x = x := by
  unfold progRun
  rcases Decidable.not_and_iff_or_not.mp h with hq | hq
  · simp [hp, hq]
  · have hx : x.chan2.last = false := by
      cases hxx : x.chan2.last
      · rfl
      · exact absurd hxx hq
    simp [hp, hx]

theorem progRun_flashOn_abort (x : SysState) (hp : x.prog = ProgSM.flashOn)
    (ht : x.acc2OnTime > 3000) : (progRun x).prog = ProgSM.reset := by
  unfold progRun; simp [hp, ht]

theorem progRun_flashOn_pulse (x : SysState) (hp : x.prog = ProgSM.flashOn)
    (ht : ¬x.acc2OnTime > 3000) (h2 : x.chan2.last = false) :
    (progRun x).prog = ProgSM.flashOff
      ∧ (progRun x).flashCount = (x.flashCount + 1) % 256 := by
  unfold progRun; constructor <;> simp [hp, ht, h2]

theorem progRun_flashOn_stay (x : SysState) (hp : x.prog = ProgSM.flashOn)
    (ht : ¬x.acc2OnTime > 3000) (h2 : x.chan2.last = true) : progRun x = x := by
  unfold progRun; simp [hp, ht, h2]

theorem progRun_flashOff_abort (x : SysState) (hp : x.prog = ProgSM.flashOff)
    (ht : x.acc2OffTime > 7000) : (progRun x).prog = ProgSM.reset := by
  unfold progRun; simp [hp, ht]

theorem progRun_flashOff_endOn (x : SysState) (hp : x.prog = ProgSM.flashOff)
    (ht : ¬x.acc2OffTime > 7000) (h2 : x.chan2.last = true)
    (h4 : x.acc2OffTime > 4000) : (progRun x).prog = ProgSM.endOn := by
  unfold progRun; simp [hp, ht, h2, h4]

theorem progRun_flashOff_reject (x : SysState) (hp : x.prog = ProgSM.flashOff)
    (ht : ¬x.acc2OffTime > 7000) (h2 : x.chan2.last = true)
    (h4 : ¬x.acc2OffTime > 4000) (h3 : x.acc2OffTime > 3000) :
    (progRun x).prog = ProgSM.reset := by
  unfold progRun; simp [hp, ht, h2, h4, h3]

theorem progRun_flashOff_again (x : SysState) (hp : x.prog = ProgSM.flashOff)
    (ht : ¬x.acc2OffTime > 7000) (h2 : x.chan2.last = true)
    (h3 : ¬x.acc2OffTime > 3000) : (progRun x).prog = ProgSM.flashOn := by
  unfold progRun
  have h4 : ¬x.acc2OffTime > 4000 := by omega
  simp [hp, ht, h2, h4, h3]

theorem progRun_endOff_confirm (x : SysState) (hp : x.prog = ProgSM.endOff)
    (ht : ¬x.acc2OffTime > 7000) (h2 : x.chan2.last = true)
    (h4 : x.acc2OffTime > 4000) :
    (progRun x).prog = ProgSM.indOn
      ∧ (progRun x).persistLog
          = x.persistLog ++ [(if x.flashCount > 25 then 25 else x.flashCount) * 10]
      ∧ (progRun x).eeprom = (if x.flashCount > 25 then 25 else x.flashCount) * 10
      ∧ (progRun x).waitMinutes = (if x.flashCount > 25 then 25 else x.flashCount) * 10 := by
  unfold progRun; refine ⟨?_, ?_, ?_, ?_⟩ <;> simp [hp, ht, h2, h4]

theorem onlyExpiry2 (s : SysState) (e : Ev)
    (hl : s.chan2.last = true) (hoff : (step s e).chan2.last = false) :
    e = Ev.exp2 false ∧ s.chan2.armed ≠ none
      ∧ (step s e).chan2.offStart = (Option.getD s.chan2.armed 0) % 65536 := by
  cases e with
  | poll p =>
    simp only [step] at hoff
    rw [pollStep_chan2_last] at hoff
    simp_all
  | edge2 t =>
    rw [show (step s (Ev.edge2 t)).chan2 = edgeChan s.chan2 t from rfl, edgeChan_last] at hoff
    cases hoff
  | exp2 raw =>
    cases raw with
    | true =>
      rw [show (step s (Ev.exp2 true)).chan2 = expChan s.chan2 true from rfl,
        expChan_true_last] at hoff
      simp_all
    | false =>
      cases h : s.chan2.armed with
      | none =>
        rw [show (step s (Ev.exp2 false)).chan2 = expChan s.chan2 false from rfl,
          expChan_of_none _ _ h] at hoff
        simp_all
      | some f =>
        refine ⟨rfl, by simp [h], ?_⟩
        rw [show (step s (Ev.exp2 false)).chan2 = expChan s.chan2 false from rfl,
          (expChan_fire s.chan2 f h hl).2]
        simp [h]
  | edge1 t => simp_all [step]
  | exp1 raw => simp_all [step]
  | sec =>
    rw [show (step s Ev.sec).chan2 = (secTick s).chan2 from rfl, secTick_chan2] at hoff
    simp_all

theorem pollStep_stayon_reset_of_off (s : SysState) (p : Poll)
    (hr : s.power ≠ PowerSM.reset) (h1f : s.chan1.last = false)
    (hreach : (powerPhase (updateTimes s (p.tick % 65536)) p).2 = false) :
    (pollStep s p).stayon = StayonSM.reset := by
  simp only [pollStep, hreach, Bool.false_eq_true, if_false]
  refine gatePhase_stayon_of_off _ ?_
  rw [powerPhase_chan1_of_ne_reset _ p (by rw [updateTimes_power]; exact hr),
    updateTimes_chan1_last]
  exact h1f

theorem stayInv_step (s : SysState) (e : Ev)
    (h : (s.power = PowerSM.down ∨ s.power = PowerSM.timer ∨ s.power = PowerSM.reset) →
      s.stayon = StayonSM.reset) :
    ((step s e).power = PowerSM.down ∨ (step s e).power = PowerSM.timer
      ∨ (step s e).power = PowerSM.reset) →
    (step s e).stayon = StayonSM.reset := by
  cases e with
  | edge1 t => simpa [step] using h
  | exp1 raw => simpa [step] using h
  | edge2 t => simpa [step] using h
  | exp2 raw => simpa [step] using h
  | sec => simpa [step, secTick_power, secTick_stayon] using h
  | poll p =>
    intro hq
    simp only [step] at hq ⊢
    by_cases h1 : s.chan1.last = true
    · by_cases hr : s.power = PowerSM.reset
      · have hst : (pollStep s p).stayon = s.stayon := by
          simp [pollStep, powerPhase, updateTimes_power, hr, updateTimes_stayon]
        rw [hst]; exact h (Or.inr (Or.inr hr))
      · rcases pollStep_power_awake s p hr h1 with hq2 | hq2 | hq2 <;>
          rcases hq with hq | hq | hq <;> simp_all
    · have h1f : s.chan1.last = false := by
        cases hx : s.chan1.last
        · rfl
        · exact absurd hx h1
      cases hp : s.power with
      | reset =>
        have hst : (pollStep s p).stayon = s.stayon := by
          simp [pollStep, powerPhase, updateTimes_power, hp, updateTimes_stayon]
        rw [hst]; exact h (Or.inr (Or.inr hp))
      | down =>
        have hst : (pollStep s p).stayon = s.stayon := by
          simp [pollStep, powerPhase, updateTimes_power, hp, updateTimes_chan1_last, h1f,
            updateTimes_stayon]
        rw [hst]; exact h (Or.inl hp)
      | timer =>
        by_cases hg : (updateTimes s (p.tick % 65536)).minutes
            ≥ (updateTimes s (p.tick % 65536)).waitMinutes
        · simp only [pollStep, powerPhase, updateTimes_power, hp, updateTimes_chan1_last, h1f,
            Bool.false_eq_true, if_false, hg, if_true, ite_true, ite_false]
          exact gatePhase_stayon_of_off _ (by simp [updateTimes_chan1_last, h1f])
        · have hst : (pollStep s p).stayon = s.stayon := by
            simp [pollStep, powerPhase, updateTimes_power, hp, updateTimes_chan1_last, h1f, hg,
              updateTimes_stayon]
          rw [hst]; exact h (Or.inr (Or.inl hp))
      | outOff =>
        exact pollStep_stayon_reset_of_off s p (by simp [hp]) h1f
          (powerPhase_snd_false_out _ p (by rw [updateTimes_power, hp]; simp))
      | outOn =>
        exact pollStep_stayon_reset_of_off s p (by simp [hp]) h1f
          (powerPhase_snd_false_out _ p (by rw [updateTimes_power, hp]; simp))
      | outStayOn =>
        exact pollStep_stayon_reset_of_off s p (by simp [hp]) h1f
          (powerPhase_snd_false_out _ p (by rw [updateTimes_power, hp]; simp))

theorem stayInv_run (ee : Nat) (evs : List Ev) :
    ((run (initState ee) evs).power = PowerSM.down ∨ (run (initState ee) evs).power = PowerSM.timer
      ∨ (run (initState ee) evs).power = PowerSM.reset) →
    (run (initState ee) evs).stayon = StayonSM.reset := by
  suffices hgen : ∀ (evs : List Ev) (s : SysState),
      ((s.power = PowerSM.down ∨ s.power = PowerSM.timer ∨ s.power = PowerSM.reset) →
        s.stayon = StayonSM.reset) →
      ((run s evs).power = PowerSM.down ∨ (run s evs).power = PowerSM.timer
        ∨ (run s evs).power = PowerSM.reset) →
      (run s evs).stayon = StayonSM.reset by
    exact hgen evs (initState ee) (fun _ => rfl)
  intro evs
  induction evs with
  | nil => intro s h; exact h
  | cons e rest ih => intro s h; exact ih (step s e) (stayInv_step s e h)

theorem pollStep_prog_of_off_stays (s : SysState) (p : Poll) (hpr : s.prog = ProgSM.reset)
    (hr : s.power ≠ PowerSM.reset) (h1f : s.chan1.last = false) :
    (pollStep s p).prog = ProgSM.reset := by
  cases hp : s.power with
  | reset => exact absurd hp hr
  | down =>
    have hst : (pollStep s p).prog = s.prog := by
      simp [pollStep, powerPhase, updateTimes_power, hp, updateTimes_chan1_last, h1f,
        updateTimes_prog]
    rw [hst]; exact hpr
  | timer =>
    by_cases hg : (updateTimes s (p.tick % 65536)).minutes
        ≥ (updateTimes s (p.tick % 65536)).waitMinutes
    · simp only [pollStep, powerPhase, updateTimes_power, hp, updateTimes_chan1_last, h1f,
        Bool.false_eq_true, if_false, hg, if_true, ite_true, ite_false]
      exact gatePhase_prog_of_off _ (by simp [updateTimes_chan1_last, h1f])
    · have hst : (pollStep s p).prog = s.prog := by
        simp [pollStep, powerPhase, updateTimes_power, hp, updateTimes_chan1_last, h1f, hg,
          updateTimes_prog]
      rw [hst]; exact hpr
  | outOff =>
    have hsnd := powerPhase_snd_false_out (updateTimes s (p.tick % 65536)) p
      (by rw [updateTimes_power, hp]; simp)
    simp only [pollStep, hsnd, Bool.false_eq_true, if_false]
    refine gatePhase_prog_of_off _ ?_
    rw [powerPhase_chan1_of_ne_reset _ p (by rw [updateTimes_power, hp]; simp),
      updateTimes_chan1_last]
    exact h1f
  | outOn =>
    have hsnd := powerPhase_snd_false_out (updateTimes s (p.tick % 65536)) p
      (by rw [updateTimes_power, hp]; simp)
    simp only [pollStep, hsnd, Bool.false_eq_true, if_false]
    refine gatePhase_prog_of_off _ ?_
    rw [powerPhase_chan1_of_ne_reset _ p (by rw [updateTimes_power, hp]; simp),
      updateTimes_chan1_last]
    exact h1f
  | outStayOn =>
    have hsnd := powerPhase_snd_false_out (updateTimes s (p.tick % 65536)) p
      (by rw [updateTimes_power, hp]; simp)
    simp only [pollStep, hsnd, Bool.false_eq_true, if_false]
    refine gatePhase_prog_of_off _ ?_
    rw [powerPhase_chan1_of_ne_reset _ p (by rw [updateTimes_power, hp]; simp),
      updateTimes_chan1_last]
    exact h1f

theorem gateFacts (s : SysState) (p : Poll) (hr : s.power ≠ PowerSM.reset)
    (h1 : s.chan1.last = true) :
    (stayonRun ((powerPhase (updateTimes s (p.tick % 65536)) p).1)).prog = s.prog
    ∧ (stayonRun ((powerPhase (updateTimes s (p.tick % 65536)) p).1)).acc1OnTime
        = (updateTimes s (p.tick % 65536)).acc1OnTime
    ∧ (stayonRun ((powerPhase (updateTimes s (p.tick % 65536)) p).1)).chan2.last
        = s.chan2.last
    ∧ (stayonRun ((powerPhase (updateTimes s (p.tick % 65536)) p).1)).acc2OnTime
        = (updateTimes s (p.tick % 65536)).acc2OnTime
    ∧ (stayonRun ((powerPhase (updateTimes s (p.tick % 65536)) p).1)).acc2OffTime
        = (updateTimes s (p.tick % 65536)).acc2OffTime
    ∧ (stayonRun ((powerPhase (updateTimes s (p.tick % 65536)) p).1)).flashCount
        = s.flashCount
    ∧ (stayonRun ((powerPhase (updateTimes s (p.tick % 65536)) p).1)).persistLog
        = s.persistLog
    ∧ (stayonRun ((powerPhase (updateTimes s (p.tick % 65536)) p).1)).eeprom = s.eeprom
    ∧ (stayonRun ((powerPhase (updateTimes s (p.tick % 65536)) p).1)).waitMinutes
        = s.waitMinutes := by
  have hru : (updateTimes s (p.tick % 65536)).power ≠ PowerSM.reset := by
    rw [updateTimes_power]; exact hr
  refine ⟨?_, ?_, ?_, ?_, ?_, ?_, ?_, ?_, ?_⟩
  · rw [stayonRun_prog, powerPhase_prog, updateTimes_prog]
  · rw [stayonRun_acc1OnTime, powerPhase_acc1OnTime]
  · rw [stayonRun_chan2, powerPhase_chan2, updateTimes_chan2_last]
  · rw [stayonRun_acc2OnTime, powerPhase_acc2OnTime]
  · rw [stayonRun_acc2OffTime, powerPhase_acc2OffTime]
  · rw [stayonRun_flashCount, powerPhase_flashCount, updateTimes_flashCount]
  · rw [stayonRun_persistLog, powerPhase_persistLog, updateTimes_persistLog]
  · rw [stayonRun_eeprom, powerPhase_eeprom, updateTimes_eeprom]
  · rw [stayonRun_waitMinutes, powerPhase_waitMinutes_of_ne_reset _ p hru,
      updateTimes_waitMinutes]

/-! ### Claim theorems -/

/-- C1: in every poll cycle where the power state is OutOn or OutStayOn, the
relay output is set ON exactly when the programming phase is not IndOff; the
IndOff phase forces it OFF, and no other phase (including IndOn) does. -/
theorem C1_relay_on_iff_not_indoff (s : SysState) (p : Poll)
    (h : s.power = PowerSM.outOn ∨ s.power = PowerSM.outStayOn) :
    ((pollStep s p).relay = true ↔ s.prog ≠ ProgSM.indOff) := by
  rcases h with h | h <;>
  · simp only [pollStep, powerPhase, updateTimes_power, updateTimes_prog, h]
    repeat' split
    all_goals simp_all [gatePhase_relay, updateTimes_prog]

/-- Witness for C1 at concrete inputs: in OutOn with the programming machine
in Reset the relay is driven ON, and in OutStayOn with the programming
machine in IndOff it is forced OFF. -/
theorem C1_relay_on_iff_not_indoff_witness :
    ((pollStep { initState 30 with power := PowerSM.outOn } ⟨100, true, true⟩).relay = true
      ↔ ({ initState 30 with power := PowerSM.outOn } : SysState).prog ≠ ProgSM.indOff)
    ∧ ((pollStep { initState 30 with power := PowerSM.outStayOn, prog := ProgSM.indOff }
          ⟨100, true, true⟩).relay = true
      ↔ ({ initState 30 with power := PowerSM.outStayOn, prog := ProgSM.indOff }
          : SysState).prog ≠ ProgSM.indOff) :=
  ⟨C1_relay_on_iff_not_indoff _ _ (Or.inl rfl),
   C1_relay_on_iff_not_indoff _ _ (Or.inr rfl)⟩

/-- C3: the poll-cycle critical section computes each active duration with
`computeTime` (wraparound uint16 subtraction of the active anchor from the
tick snapshot); `computeTime` never yields more than 65000 ms, clamps any
raw difference above 65000 ms to exactly 65000 and rewrites the anchor to
`tick - 65000` (uint16), and a subsequent computation from the rewritten
anchor is again bounded by 65000 ms. -/
theorem C3_duration_saturation :
    (∀ (s : SysState) (c : Nat),
      (s.chan1.last = true →
        (updateTimes s c).acc1OnTime = (computeTime c s.chan1.onStart).1)
      ∧ (s.chan1.last = false →
        (updateTimes s c).acc1OffTime = (computeTime c s.chan1.offStart).1)
      ∧ (s.chan2.last = true →
        (updateTimes s c).acc2OnTime = (computeTime c s.chan2.onStart).1)
      ∧ (s.chan2.last = false →
        (updateTimes s c).acc2OffTime = (computeTime c s.chan2.offStart).1))
    ∧ (∀ tick anchor : Nat,
      (computeTime tick anchor).1 ≤ 65000
      ∧ ((tick + 65536 - anchor) % 65536 > 65000 →
          (computeTime tick anchor).1 = 65000
          ∧ (computeTime tick anchor).2 = (tick + 65536 - 65000) % 65536)
      ∧ (∀ tick2 : Nat, (computeTime tick2 (computeTime tick anchor).2).1 ≤ 65000)) := by
  constructor
  · intro s c
    refine ⟨fun h => updateTimes_acc1OnTime_on s c h,
            fun h => updateTimes_acc1OffTime_off s c h,
            fun h => updateTimes_acc2OnTime_on s c h,
            fun h => updateTimes_acc2OffTime_off s c h⟩
  · intro tick anchor
    refine ⟨computeTime_fst_le _ _, ?_, fun tick2 => computeTime_fst_le _ _⟩
    intro h
    simp only [computeTime]; split <;> simp_all

/-- Witness for C3 at concrete inputs: with ACC1 ON since tick 200 and ACC2
OFF since tick 300, the cycle at tick 1000 yields the computeTime results;
a raw difference of 65500 ms is clamped to 65000 with anchor rewritten to
500; the next computation is again bounded. -/
theorem C3_duration_saturation_witness :
    ((updateTimes { initState 30 with
        chan1 := { last := true, onStart := 200, offStart := 0, armed := none },
        chan2 := { last := false, onStart := 0, offStart := 300, armed := none } } 1000).acc1OnTime
      = (computeTime 1000 200).1)
    ∧ ((updateTimes { initState 30 with
        chan1 := { last := true, onStart := 200, offStart := 0, armed := none },
        chan2 := { last := false, onStart := 0, offStart := 300, armed := none } } 1000).acc2OffTime
      = (computeTime 1000 300).1)
    ∧ (computeTime 65500 0).1 ≤ 65000
    ∧ ((65500 + 65536 - 0) % 65536 > 65000 →
        (computeTime 65500 0).1 = 65000 ∧ (computeTime 65500 0).2 = (65500 + 65536 - 65000) % 65536)
    ∧ (computeTime 700 (computeTime 65500 0).2).1 ≤ 65000 :=
  ⟨(C3_duration_saturation.1 _ 1000).1 rfl,
   (C3_duration_saturation.1 _ 1000).2.2.2 rfl,
   (C3_duration_saturation.2 65500 0).1,
   (C3_duration_saturation.2 65500 0).2.1,
   (C3_duration_saturation.2 65500 0).2.2 700⟩

/-- C8: in OutStayOn with the primary still debounced ON, the poll cycle
moves the power machine to OutOff exactly when the secondary is debounced
OFF with an OFF duration (as recomputed this cycle) above 500 ms. -/
theorem C8_stayon_off_grace (s : SysState) (p : Poll)
    (hp : s.power = PowerSM.outStayOn) (h1 : s.chan1.last = true) :
    ((pollStep s p).power = PowerSM.outOff
      ↔ (s.chan2.last = false ∧ (updateTimes s (p.tick % 65536)).acc2OffTime > 500)) := by
  have hnot : ∀ x : SysState, x.power = PowerSM.outStayOn →
      ¬(stayonRun x).power = PowerSM.outOff := by
    intro x hx; rcases stayonRun_power_eq_or x with hq | hq <;> simp_all
  by_cases h2 : s.chan2.last = true
  · simp only [pollStep, powerPhase, updateTimes_power, hp, updateTimes_chan1_last, h1,
      updateTimes_chan2_last, h2, if_pos rfl, if_true, Bool.false_eq_true, if_false,
      gatePhase, progRun_power]
    refine iff_of_false (hnot _ (by simp)) ?_
    simp [h2]
  · have h2f : s.chan2.last = false := by
      cases hx : s.chan2.last
      · rfl
      · exact absurd hx h2
    by_cases h5 : (updateTimes s (p.tick % 65536)).acc2OffTime > 500
    · simp only [pollStep, powerPhase, updateTimes_power, hp, updateTimes_chan1_last, h1,
        updateTimes_chan2_last, h2f, h5, gatePhase, progRun_power, if_true, if_false,
        Bool.false_eq_true, ite_true, ite_false, eq_self_iff_true]
      rw [stayonRun_power_of_not_acc2]
      · simp [h2f, h5]
      · simp [updateTimes_chan2_last, h2f]
    · simp only [pollStep, powerPhase, updateTimes_power, hp, updateTimes_chan1_last, h1,
        updateTimes_chan2_last, h2f, h5, gatePhase, progRun_power, if_true, if_false,
        Bool.false_eq_true, ite_true, ite_false, eq_self_iff_true]
      rw [stayonRun_power_of_not_acc2]
      · simp [h2f, h5]
      · simp [updateTimes_chan2_last, h2f]

/-- Witness for C8 at concrete inputs: a 0.3 s secondary dropout (OFF since
tick 0, polled at tick 300) does not leave OutStayOn for OutOff, while a
0.6 s OFF duration does. -/
theorem C8_stayon_off_grace_witness :
    (¬(pollStep { initState 30 with
        power := PowerSM.outStayOn,
        chan1 := { last := true, onStart := 0, offStart := 0, armed := none } }
        ⟨300, true, false⟩).power = PowerSM.outOff)
    ∧ (pollStep { initState 30 with
        power := PowerSM.outStayOn,
        chan1 := { last := true, onStart := 0, offStart := 0, armed := none } }
        ⟨600, true, false⟩).power = PowerSM.outOff := by
  constructor
  · intro hcon
    have h := (C8_stayon_off_grace _ ⟨300, true, false⟩ rfl rfl).mp hcon
    exact absurd h.2 (by decide)
  · exact (C8_stayon_off_grace _ ⟨600, true, false⟩ rfl rfl).mpr ⟨rfl, by decide⟩

/-- C7 (amended): at boot the primary channel's debounced level is primed
from a current raw pin read, while the secondary channel's level is NOT
primed — it keeps its zero-initial OFF value until an ACC2 interrupt runs;
the Reset state dispatches on the raw reads of both pins (primary ON with
secondary ON goes to OutOn, primary ON with secondary OFF goes to OutOff,
primary OFF goes to Down), loads `wait_minutes` from the EEPROM byte,
clears the second counters, and this bring-up runs exactly once: no event
ever returns the power machine to Reset. -/
theorem C7_boot_bringup (s : SysState) (p : Poll) (hp : s.power = PowerSM.reset) :
    (pollStep s p).chan1.last = p.raw1
    ∧ (pollStep s p).chan2.last = s.chan2.last
    ∧ (pollStep s p).power
        = (if p.raw1 then (if p.raw2 then PowerSM.outOn else PowerSM.outOff) else PowerSM.down)
    ∧ (pollStep s p).waitMinutes = s.eeprom
    ∧ (pollStep s p).minutes = 0
    ∧ (∀ (x : SysState) (e : Ev), x.power ≠ PowerSM.reset → (step x e).power ≠ PowerSM.reset) := by
  refine ⟨?_, ?_, ?_, ?_, ?_, ?_⟩
  · simp [pollStep, powerPhase, updateTimes_power, hp]
  · simp [pollStep, powerPhase, updateTimes_power, hp, updateTimes_chan2_last]
  · simp [pollStep, powerPhase, updateTimes_power, hp]
  · simp [pollStep, powerPhase, updateTimes_power, hp, updateTimes_eeprom]
  · simp [pollStep, powerPhase, updateTimes_power, hp]
  · intro x e hx
    cases e with
    | poll p2 => exact pollStep_power_ne_reset x p2
    | edge1 t => simpa [step] using hx
    | exp1 raw => simpa [step] using hx
    | edge2 t => simpa [step] using hx
    | exp2 raw => simpa [step] using hx
    | sec => simpa [step] using hx

/-- Witness for C7 at a concrete input: booting with both raw pins high
dispatches to OutOn, primes the primary level ON, leaves the secondary
level at its initial OFF, loads wait_minutes = 30 and clears minutes. -/
theorem C7_boot_bringup_witness :
    (pollStep (initState 30) ⟨100, true, true⟩).chan1.last = true
    ∧ (pollStep (initState 30) ⟨100, true, true⟩).chan2.last = (initState 30).chan2.last
    ∧ (pollStep (initState 30) ⟨100, true, true⟩).power
        = (if true then (if true then PowerSM.outOn else PowerSM.outOff) else PowerSM.down)
    ∧ (pollStep (initState 30) ⟨100, true, true⟩).waitMinutes = (initState 30).eeprom
    ∧ (pollStep (initState 30) ⟨100, true, true⟩).minutes = 0
    ∧ (∀ (x : SysState) (e : Ev), x.power ≠ PowerSM.reset → (step x e).power ≠ PowerSM.reset) :=
  C7_boot_bringup (initState 30) ⟨100, true, true⟩ rfl

/-- Counterexample for C7 as stated: at a boot where the ACC2 raw read is
high, the dispatch goes to OutOn, yet the secondary channel's debounced
level remains OFF — it was not primed from the raw pin read. -/
theorem C7_boot_bringup_counterexample :
    (pollStep (initState 30) ⟨100, true, true⟩).power = PowerSM.outOn
    ∧ (pollStep (initState 30) ⟨100, true, true⟩).chan2.last = false := by
  constructor <;> rfl

/-- C2: per input channel, an edge while the debounced level is OFF latches
it ON at once with the ON anchor at the current tick; every edge (re)arms
the one-shot debounce compare to fire 50 ms out; a fire with the raw pin
low while the level is ON latches OFF with the OFF anchor at the fire time,
while a fire with the pin high leaves the channel unchanged; the level can
go ON-to-OFF only through an armed debounce fire with the pin low (for ACC1,
outside the one-time Reset bring-up which primes the level), recording the
OFF anchor at the fire time; and on any trace from boot the armed fire time
is exactly 50 ms after the most recent edge, so every OFF transition
happens at least 50 ms after the last edge. -/
theorem C2_debounce_engine :
    (∀ (ch : Chan) (t : Nat), ch.last = false →
      (edgeChan ch t).last = true ∧ (edgeChan ch t).onStart = t % 65536)
    ∧ (∀ (ch : Chan) (t : Nat), (edgeChan ch t).armed = some (t + 50))
    ∧ (∀ (ch : Chan) (f : Nat), ch.armed = some f → ch.last = true →
      (expChan ch false).last = false ∧ (expChan ch false).offStart = f % 65536)
    ∧ (∀ ch : Chan, (expChan ch true).last = ch.last
      ∧ (expChan ch true).onStart = ch.onStart ∧ (expChan ch true).offStart = ch.offStart)
    ∧ (∀ (s : SysState) (e : Ev), s.power ≠ PowerSM.reset → s.chan1.last = true →
      (step s e).chan1.last = false →
      e = Ev.exp1 false ∧ s.chan1.armed ≠ none
        ∧ (step s e).chan1.offStart = (Option.getD s.chan1.armed 0) % 65536)
    ∧ (∀ (s : SysState) (e : Ev), s.chan2.last = true → (step s e).chan2.last = false →
      e = Ev.exp2 false ∧ s.chan2.armed ≠ none
        ∧ (step s e).chan2.offStart = (Option.getD s.chan2.armed 0) % 65536)
    ∧ (∀ (ee : Nat) (evs : List Ev) (f : Nat),
      (run (initState ee) evs).chan1.armed = some f →
      ∃ tE, lastEdge1 evs = some tE ∧ f = tE + 50)
    ∧ (∀ (ee : Nat) (evs : List Ev) (f : Nat),
      (run (initState ee) evs).chan2.armed = some f →
      ∃ tE, lastEdge2 evs = some tE ∧ f = tE + 50) :=
  ⟨edgeChan_on, edgeChan_armed,
   fun ch f h hl => expChan_fire ch f h hl,
   fun ch => ⟨expChan_true_last ch, expChan_true_onStart ch, expChan_true_offStart ch⟩,
   onlyExpiry1, onlyExpiry2,
   fun ee evs f h => armedInv1_aux evs (initState ee) none (fun _ hf => by cases hf) f h,
   fun ee evs f h => armedInv2_aux evs (initState ee) none (fun _ hf => by cases hf) f h⟩

/-- Witness for C2 at concrete inputs: an edge at t=100 on an OFF channel
latches ON with anchor 100 and arms the compare at 150; a fire with the pin
low on an ON channel armed at 150 latches OFF with anchor 150; a fire with
the pin high changes nothing; the system-level OFF transitions name the
expiry event; and after the single edge at t=7 (resp. 9) the armed fire
time is 57 (resp. 59). -/
theorem C2_debounce_engine_witness :
    ((edgeChan ⟨false, 0, 0, none⟩ 100).last = true
      ∧ (edgeChan ⟨false, 0, 0, none⟩ 100).onStart = 100 % 65536)
    ∧ (edgeChan ⟨false, 0, 0, none⟩ 100).armed = some (100 + 50)
    ∧ ((expChan ⟨true, 5, 0, some 150⟩ false).last = false
      ∧ (expChan ⟨true, 5, 0, some 150⟩ false).offStart = 150 % 65536)
    ∧ ((expChan ⟨true, 5, 0, some 150⟩ true).last = (⟨true, 5, 0, some 150⟩ : Chan).last
      ∧ (expChan ⟨true, 5, 0, some 150⟩ true).onStart = (⟨true, 5, 0, some 150⟩ : Chan).onStart
      ∧ (expChan ⟨true, 5, 0, some 150⟩ true).offStart
          = (⟨true, 5, 0, some 150⟩ : Chan).offStart)
    ∧ (Ev.exp1 false = Ev.exp1 false
      ∧ ({ initState 30 with
            power := PowerSM.outOn, chan1 := ⟨true, 5, 0, some 150⟩ } : SysState).chan1.armed
          ≠ none
      ∧ (step { initState 30 with
            power := PowerSM.outOn, chan1 := ⟨true, 5, 0, some 150⟩ }
          (Ev.exp1 false)).chan1.offStart
        = (Option.getD ({ initState 30 with
            power := PowerSM.outOn, chan1 := ⟨true, 5, 0, some 150⟩ } : SysState).chan1.armed 0)
          % 65536)
    ∧ (Ev.exp2 false = Ev.exp2 false
      ∧ ({ initState 30 with chan2 := ⟨true, 5, 0, some 150⟩ } : SysState).chan2.armed ≠ none
      ∧ (step { initState 30 with chan2 := ⟨true, 5, 0, some 150⟩ }
          (Ev.exp2 false)).chan2.offStart
        = (Option.getD
            ({ initState 30 with chan2 := ⟨true, 5, 0, some 150⟩ } : SysState).chan2.armed 0)
          % 65536)
    ∧ (∃ tE, lastEdge1 [Ev.edge1 7] = some tE ∧ 57 = tE + 50)
    ∧ (∃ tE, lastEdge2 [Ev.edge2 9] = some tE ∧ 59 = tE + 50) :=
  ⟨C2_debounce_engine.1 ⟨false, 0, 0, none⟩ 100 rfl,
   C2_debounce_engine.2.1 ⟨false, 0, 0, none⟩ 100,
   C2_debounce_engine.2.2.1 ⟨true, 5, 0, some 150⟩ 150 rfl rfl,
   C2_debounce_engine.2.2.2.1 ⟨true, 5, 0, some 150⟩,
   C2_debounce_engine.2.2.2.2.1 _ (Ev.exp1 false) (by decide) rfl rfl,
   C2_debounce_engine.2.2.2.2.2.1 _ (Ev.exp2 false) rfl rfl,
   C2_debounce_engine.2.2.2.2.2.2.1 30 [Ev.edge1 7] 57 rfl,
   C2_debounce_engine.2.2.2.2.2.2.2 30 [Ev.edge2 9] 59 rfl⟩

/-- C6: while the primary is debounced ON, the StayON detector moves from
Reset to WaitOn on secondary ON; in WaitOn an ON duration above 3000 ms
aborts to Reset while secondary OFF first moves to WaitOff; in WaitOff an
OFF duration above 3000 ms aborts to Reset, while secondary ON first
recognizes the gesture — detector back to Reset and the power machine
forced to OutStayOn; and on any trace from boot, a poll that sees the
primary debounced OFF leaves the detector in Reset. -/
theorem C6_stayon_detector :
    (∀ (s : SysState) (p : Poll), s.stayon = StayonSM.reset → s.power ≠ PowerSM.reset →
      s.chan1.last = true → s.chan2.last = true →
      (pollStep s p).stayon = StayonSM.waitOn)
    ∧ (∀ (s : SysState) (p : Poll), s.stayon = StayonSM.waitOn → s.power ≠ PowerSM.reset →
      s.chan1.last = true →
      ((updateTimes s (p.tick % 65536)).acc2OnTime > 3000 →
        (pollStep s p).stayon = StayonSM.reset)
      ∧ (¬(updateTimes s (p.tick % 65536)).acc2OnTime > 3000 → s.chan2.last = false →
        (pollStep s p).stayon = StayonSM.waitOff))
    ∧ (∀ (s : SysState) (p : Poll), s.stayon = StayonSM.waitOff → s.power ≠ PowerSM.reset →
      s.chan1.last = true →
      ((updateTimes s (p.tick % 65536)).acc2OffTime > 3000 →
        (pollStep s p).stayon = StayonSM.reset)
      ∧ (¬(updateTimes s (p.tick % 65536)).acc2OffTime > 3000 → s.chan2.last = true →
        (pollStep s p).stayon = StayonSM.reset ∧ (pollStep s p).power = PowerSM.outStayOn))
    ∧ (∀ (ee : Nat) (evs : List Ev) (p : Poll),
      (run (initState ee) evs).chan1.last = false →
      (pollStep (run (initState ee) evs) p).stayon = StayonSM.reset) := by
  have tr : ∀ (s : SysState) (p : Poll), s.power ≠ PowerSM.reset → s.chan1.last = true →
      ((powerPhase (updateTimes s (p.tick % 65536)) p).1).stayon = s.stayon
      ∧ ((powerPhase (updateTimes s (p.tick % 65536)) p).1).chan1.last = true
      ∧ ((powerPhase (updateTimes s (p.tick % 65536)) p).1).chan2.last = s.chan2.last
      ∧ ((powerPhase (updateTimes s (p.tick % 65536)) p).1).acc2OnTime
          = (updateTimes s (p.tick % 65536)).acc2OnTime
      ∧ ((powerPhase (updateTimes s (p.tick % 65536)) p).1).acc2OffTime
          = (updateTimes s (p.tick % 65536)).acc2OffTime := by
    intro s p hr h1
    have hru : (updateTimes s (p.tick % 65536)).power ≠ PowerSM.reset := by
      rw [updateTimes_power]; exact hr
    refine ⟨?_, ?_, ?_, ?_, ?_⟩
    · rw [powerPhase_stayon, updateTimes_stayon]
    · rw [powerPhase_chan1_of_ne_reset _ p hru, updateTimes_chan1_last]; exact h1
    · rw [powerPhase_chan2, updateTimes_chan2_last]
    · rw [powerPhase_acc2OnTime]
    · rw [powerPhase_acc2OffTime]
  refine ⟨?_, ?_, ?_, ?_⟩
  · intro s p hs hr h1 h2
    obtain ⟨f1, f2, f3, f4, f5⟩ := tr s p hr h1
    rw [pollStep_gate_eq s p hr h1, progRun_stayon]
    exact stayonRun_reset_go _ (f1.trans hs) f2 (f3.trans h2)
  · intro s p hs hr h1
    obtain ⟨f1, f2, f3, f4, f5⟩ := tr s p hr h1
    constructor
    · intro ht
      rw [pollStep_gate_eq s p hr h1, progRun_stayon]
      exact stayonRun_waitOn_abort _ (f1.trans hs) (by rw [f4]; exact ht)
    · intro ht h2
      rw [pollStep_gate_eq s p hr h1, progRun_stayon]
      exact stayonRun_waitOn_to_off _ (f1.trans hs) (by rw [f4]; exact ht) (f3.trans h2)
  · intro s p hs hr h1
    obtain ⟨f1, f2, f3, f4, f5⟩ := tr s p hr h1
    constructor
    · intro ht
      rw [pollStep_gate_eq s p hr h1, progRun_stayon]
      exact stayonRun_waitOff_abort _ (f1.trans hs) (by rw [f5]; exact ht)
    · intro ht h2
      have hsucc := stayonRun_waitOff_success
        ((powerPhase (updateTimes s (p.tick % 65536)) p).1) (f1.trans hs)
        (by rw [f5]; exact ht) (f3.trans h2)
      constructor
      · rw [pollStep_gate_eq s p hr h1, progRun_stayon]; exact hsucc.1
      · rw [pollStep_gate_eq s p hr h1, progRun_power]; exact hsucc.2
  · intro ee evs p hoff
    by_cases hr : (run (initState ee) evs).power = PowerSM.reset
    · have hst : (pollStep (run (initState ee) evs) p).stayon
          = (run (initState ee) evs).stayon := by
        simp [pollStep, powerPhase, updateTimes_power, hr, updateTimes_stayon]
      rw [hst]
      exact stayInv_run ee evs (Or.inr (Or.inr hr))
    · have hstep := stayInv_step (run (initState ee) evs) (Ev.poll p)
        (fun hc => stayInv_run ee evs hc)
      cases hp : (run (initState ee) evs).power with
      | reset => exact absurd hp hr
      | down =>
        by_cases hq : (pollStep (run (initState ee) evs) p).power = PowerSM.down
          ∨ (pollStep (run (initState ee) evs) p).power = PowerSM.timer
          ∨ (pollStep (run (initState ee) evs) p).power = PowerSM.reset
        · simpa [step] using hstep (by simpa [step] using hq)
        · -- Down with primary OFF always sleeps and stays Down, so hq must hold
          exfalso
          refine hq (Or.inl ?_)
          simp [pollStep, powerPhase, updateTimes_power, hp, updateTimes_chan1_last, hoff]
      | timer =>
        by_cases hg : (updateTimes (run (initState ee) evs) (p.tick % 65536)).minutes
            ≥ (updateTimes (run (initState ee) evs) (p.tick % 65536)).waitMinutes
        · simp only [pollStep, powerPhase, updateTimes_power, hp, updateTimes_chan1_last, hoff,
            Bool.false_eq_true, if_false, hg, if_true, ite_true, ite_false]
          exact gatePhase_stayon_of_off _ (by simp [updateTimes_chan1_last, hoff])
        · have hst : (pollStep (run (initState ee) evs) p).stayon
              = (run (initState ee) evs).stayon := by
            simp [pollStep, powerPhase, updateTimes_power, hp, updateTimes_chan1_last, hoff, hg,
              updateTimes_stayon]
          rw [hst]
          exact stayInv_run ee evs (Or.inr (Or.inl hp))
      | outOff =>
        exact pollStep_stayon_reset_of_off _ p (by simp [hp]) hoff
          (powerPhase_snd_false_out _ p (by rw [updateTimes_power, hp]; simp))
      | outOn =>
        exact pollStep_stayon_reset_of_off _ p (by simp [hp]) hoff
          (powerPhase_snd_false_out _ p (by rw [updateTimes_power, hp]; simp))
      | outStayOn =>
        exact pollStep_stayon_reset_of_off _ p (by simp [hp]) hoff
          (powerPhase_snd_false_out _ p (by rw [updateTimes_power, hp]; simp))

/-- Witness for C6 at concrete inputs: with the primary ON, a secondary ON
in Reset arms the detector (WaitOn); a short ON then OFF moves to WaitOff;
a secondary ON 450 ms into the OFF gap recognizes the gesture, resetting
the detector and forcing OutStayOn; and a poll seeing the primary OFF after
the boot trace leaves the detector in Reset. -/
theorem C6_stayon_detector_witness :
    (pollStep { initState 30 with
        power := PowerSM.outOn,
        chan1 := { last := true, onStart := 0, offStart := 0, armed := none },
        chan2 := { last := true, onStart := 100, offStart := 0, armed := none } }
        ⟨600, true, true⟩).stayon = StayonSM.waitOn
    ∧ (pollStep { initState 30 with
        power := PowerSM.outOn, stayon := StayonSM.waitOn,
        chan1 := { last := true, onStart := 0, offStart := 0, armed := none },
        chan2 := { last := false, onStart := 100, offStart := 1100, armed := none },
        acc2OnTime := 1000 }
        ⟨1500, true, false⟩).stayon = StayonSM.waitOff
    ∧ ((pollStep { initState 30 with
        power := PowerSM.outOn, stayon := StayonSM.waitOff,
        chan1 := { last := true, onStart := 0, offStart := 0, armed := none },
        chan2 := { last := true, onStart := 1550, offStart := 1100, armed := none },
        acc2OffTime := 450 }
        ⟨1600, true, true⟩).stayon = StayonSM.reset
      ∧ (pollStep { initState 30 with
        power := PowerSM.outOn, stayon := StayonSM.waitOff,
        chan1 := { last := true, onStart := 0, offStart := 0, armed := none },
        chan2 := { last := true, onStart := 1550, offStart := 1100, armed := none },
        acc2OffTime := 450 }
        ⟨1600, true, true⟩).power = PowerSM.outStayOn)
    ∧ (pollStep (run (initState 30) [Ev.poll ⟨100, false, false⟩]) ⟨200, false, false⟩).stayon
        = StayonSM.reset := by
  refine ⟨?_, ?_, ?_, ?_⟩
  · exact C6_stayon_detector.1 _ ⟨600, true, true⟩ rfl (by decide) rfl rfl
  · exact (C6_stayon_detector.2.1 _ ⟨1500, true, false⟩ rfl (by decide) rfl).2
      (by decide) rfl
  · exact (C6_stayon_detector.2.2.1 _ ⟨1600, true, true⟩ rfl (by decide) rfl).2
      (by decide) rfl
  · exact C6_stayon_detector.2.2.2 30 [Ev.poll ⟨100, false, false⟩] ⟨200, false, false⟩ rfl

/-- C9: on every trace from boot the minutes counter never exceeds 60 (the
1-second tick ISR saturates it there), and in Timer with the primary OFF and
`wait_minutes > 60` the timeout comparison `minutes >= wait_minutes` can
never hold, so the Timer-to-Down timeout transition never fires: the power
machine stays in Timer (it takes the idle-sleep path). -/
theorem C9_minutes_saturation :
    (∀ (ee : Nat) (evs : List Ev), (run (initState ee) evs).minutes ≤ 60)
    ∧ (∀ s : SysState, s.minutes ≤ 60 → (secTick s).minutes ≤ 60)
    ∧ (∀ (s : SysState) (p : Poll), s.power = PowerSM.timer → s.chan1.last = false →
        s.minutes ≤ 60 → s.waitMinutes > 60 → (pollStep s p).power = PowerSM.timer) := by
  refine ⟨fun ee evs => run_minutes_le evs _ (by simp [initState]),
          fun s h => secTick_minutes_le s h, ?_⟩
  intro s p hp h1 hm hw
  have hge : ¬((updateTimes s (p.tick % 65536)).minutes
      ≥ (updateTimes s (p.tick % 65536)).waitMinutes) := by
    rw [updateTimes_minutes, updateTimes_waitMinutes]; omega
  simp only [pollStep, powerPhase, updateTimes_power, hp, updateTimes_chan1_last, h1,
    Bool.false_eq_true, if_false, hge, if_true, ite_true, ite_false]

/-- Witness for C9 at concrete inputs: after the 256-pulse programming trace
the minutes counter is within bound; a tick from minutes = 60 stays at 60;
and a Timer poll with wait_minutes = 250 and the primary OFF stays in Timer. -/
theorem C9_minutes_saturation_witness :
    (run (initState 30) (progTrace 2)).minutes ≤ 60
    ∧ (secTick { initState 30 with seconds := 59, minutes := 60 }).minutes ≤ 60
    ∧ (pollStep { initState 30 with
        power := PowerSM.timer, waitMinutes := 250, minutes := 59 }
        ⟨100, true, false⟩).power = PowerSM.timer :=
  ⟨C9_minutes_saturation.1 30 (progTrace 2),
   C9_minutes_saturation.2.1 _ (by decide),
   C9_minutes_saturation.2.2 _ ⟨100, true, false⟩ rfl rfl (by decide) (by decide)⟩

/-- C10: once a poll iteration has taken the Timer-state idle-sleep path the
watchdog is left disabled, and it stays disabled across every subsequent
event — in particular across transitions out of Timer into OutOn/OutOff,
and across the per-iteration `wdt_reset()`, which never re-enables it — the
only steps that re-enable the watchdog are a poll waking from the
Down-state sleep or one running the Reset bring-up. -/
theorem C10_watchdog_stays_disabled :
    (∀ (s : SysState) (p : Poll),
      s.power = PowerSM.timer → s.chan1.last = false → s.minutes < s.waitMinutes →
      (pollStep s p).wdtOn = false)
    ∧ (∀ (s : SysState) (e : Ev), s.wdtOn = false → (step s e).wdtOn = true →
      ∃ p : Poll, e = Ev.poll p
        ∧ (s.power = PowerSM.reset ∨ (s.power = PowerSM.down ∧ s.chan1.last = false)))
    ∧ (∀ (s : SysState) (p : Poll), s.power = PowerSM.timer → s.chan1.last = true →
      (pollStep s p).wdtOn = s.wdtOn) := by
  refine ⟨?_, ?_, ?_⟩
  · intro s p hp h1 hm
    have hge : ¬((updateTimes s (p.tick % 65536)).minutes
        ≥ (updateTimes s (p.tick % 65536)).waitMinutes) := by
      rw [updateTimes_minutes, updateTimes_waitMinutes]; omega
    simp only [pollStep, powerPhase, updateTimes_power, hp, updateTimes_chan1_last, h1,
      Bool.false_eq_true, if_false, hge, ite_true, ite_false]
  · intro s e h0 h1
    cases e with
    | edge1 t => simp_all [step]
    | exp1 raw => simp_all [step]
    | edge2 t => simp_all [step]
    | exp2 raw => simp_all [step]
    | sec => simp_all [step]
    | poll p =>
      refine ⟨p, rfl, ?_⟩
      simp only [step] at h1
      cases hp : s.power <;>
        simp only [pollStep, powerPhase, updateTimes_power, hp] at h1
      case reset => exact Or.inl rfl
      all_goals
        repeat' split at h1
      all_goals
        simp_all [gatePhase_wdtOn, progRun_wdtOn, stayonRun_wdtOn, updateTimes_wdtOn,
          updateTimes_chan1_last]
  · intro s p hp h1
    simp only [pollStep, powerPhase, updateTimes_power, hp, updateTimes_chan1_last, h1,
      if_true, ite_true]
    simp [gatePhase_wdtOn, progRun_wdtOn, stayonRun_wdtOn, updateTimes_wdtOn]

/-- Witness for C10 at concrete inputs: a Timer idle-sleep poll disables the
watchdog; with it disabled, an ACC1 edge keeps it disabled (the only
re-enabling steps are the Down sleep and Reset, per the theorem); and a poll
that leaves Timer for OutOn keeps it disabled. -/
theorem C10_watchdog_stays_disabled_witness :
    (pollStep { initState 30 with power := PowerSM.timer, waitMinutes := 30 }
      ⟨100, true, false⟩).wdtOn = false
    ∧ (pollStep { initState 30 with
        power := PowerSM.timer, waitMinutes := 30, wdtOn := false,
        chan1 := { last := true, onStart := 0, offStart := 0, armed := none },
        chan2 := { last := true, onStart := 0, offStart := 0, armed := none } }
        ⟨100, true, false⟩).wdtOn
      = ({ initState 30 with
        power := PowerSM.timer, waitMinutes := 30, wdtOn := false,
        chan1 := { last := true, onStart := 0, offStart := 0, armed := none },
        chan2 := { last := true, onStart := 0, offStart := 0, armed := none } }
        : SysState).wdtOn :=
  ⟨C10_watchdog_stays_disabled.1 _ ⟨100, true, false⟩ rfl rfl (by decide),
   C10_watchdog_stays_disabled.2.2 _ ⟨100, true, false⟩ rfl rfl⟩

/-- C4: the programming machine leaves Reset (zeroing flash_count, entering
FlashOn) exactly when the primary is debounced ON with its current ON-run
at most 60000 ms and the secondary is debounced ON; in FlashOn an ON
duration above 3000 ms aborts to Reset, secondary OFF first counts a flash
(increment mod 256) and enters FlashOff, and otherwise it stays in FlashOn;
in FlashOff an OFF duration above 7000 ms aborts to Reset, and on secondary
ON an OFF duration in (4000, 7000] enters EndOn, one in (3000, 4000] aborts
to Reset, and one at most 3000 returns to FlashOn. -/
theorem C4_prog_flash_phase :
    (∀ (s : SysState) (p : Poll), s.prog = ProgSM.reset → s.power ≠ PowerSM.reset →
      (((pollStep s p).prog ≠ ProgSM.reset) ↔
        (s.chan1.last = true ∧ (updateTimes s (p.tick % 65536)).acc1OnTime ≤ 60000
          ∧ s.chan2.last = true))
      ∧ ((pollStep s p).prog ≠ ProgSM.reset →
        (pollStep s p).prog = ProgSM.flashOn ∧ (pollStep s p).flashCount = 0))
    ∧ (∀ (s : SysState) (p : Poll), s.prog = ProgSM.flashOn → s.power ≠ PowerSM.reset →
      s.chan1.last = true →
      ((updateTimes s (p.tick % 65536)).acc2OnTime > 3000 →
        (pollStep s p).prog = ProgSM.reset)
      ∧ (¬(updateTimes s (p.tick % 65536)).acc2OnTime > 3000 → s.chan2.last = false →
        (pollStep s p).prog = ProgSM.flashOff
        ∧ (pollStep s p).flashCount = (s.flashCount + 1) % 256)
      ∧ (¬(updateTimes s (p.tick % 65536)).acc2OnTime > 3000 → s.chan2.last = true →
        (pollStep s p).prog = ProgSM.flashOn))
    ∧ (∀ (s : SysState) (p : Poll), s.prog = ProgSM.flashOff → s.power ≠ PowerSM.reset →
      s.chan1.last = true →
      ((updateTimes s (p.tick % 65536)).acc2OffTime > 7000 →
        (pollStep s p).prog = ProgSM.reset)
      ∧ (¬(updateTimes s (p.tick % 65536)).acc2OffTime > 7000 → s.chan2.last = true →
        ((updateTimes s (p.tick % 65536)).acc2OffTime > 4000 →
          (pollStep s p).prog = ProgSM.endOn)
        ∧ (¬(updateTimes s (p.tick % 65536)).acc2OffTime > 4000 →
            (updateTimes s (p.tick % 65536)).acc2OffTime > 3000 →
          (pollStep s p).prog = ProgSM.reset)
        ∧ (¬(updateTimes s (p.tick % 65536)).acc2OffTime > 3000 →
          (pollStep s p).prog = ProgSM.flashOn))) := by
  refine ⟨?_, ?_, ?_⟩
  · intro s p hpr hr
    by_cases h1 : s.chan1.last = true
    · obtain ⟨f1, f2, f3, f4, f5, f6, f7, f8, f9⟩ := gateFacts s p hr h1
      rw [pollStep_gate_eq s p hr h1]
      by_cases hw : (updateTimes s (p.tick % 65536)).acc1OnTime ≤ 60000
      · by_cases h2 : s.chan2.last = true
        · have hst := progRun_reset_start _ (f1.trans hpr) (by rw [f2]; exact hw)
            (f3.trans h2)
          constructor
          · rw [hst.1]; simp [h1, hw, h2]
          · intro _; exact hst
        · have hst := progRun_reset_stay
            (stayonRun ((powerPhase (updateTimes s (p.tick % 65536)) p).1))
            (f1.trans hpr) (by rw [f2, f3]; intro hcc; exact h2 hcc.2)
          rw [hst, f1, hpr]
          constructor
          · simp [h2]
          · intro hcc; exact absurd rfl hcc
      · have hst := progRun_reset_stay
          (stayonRun ((powerPhase (updateTimes s (p.tick % 65536)) p).1))
          (f1.trans hpr) (by rw [f2]; intro hcc; exact hw hcc.1)
        rw [hst, f1, hpr]
        constructor
        · simp [hw]
        · intro hcc; exact absurd rfl hcc
    · have h1f : s.chan1.last = false := by
        cases hx : s.chan1.last
        · rfl
        · exact absurd hx h1
      have hst := pollStep_prog_of_off_stays s p hpr hr h1f
      rw [hst]
      constructor
      · simp [h1f]
      · intro hcc; exact absurd rfl hcc
  · intro s p hpr hr h1
    obtain ⟨f1, f2, f3, f4, f5, f6, f7, f8, f9⟩ := gateFacts s p hr h1
    rw [pollStep_gate_eq s p hr h1]
    refine ⟨?_, ?_, ?_⟩
    · intro ht
      exact progRun_flashOn_abort _ (f1.trans hpr) (by rw [f4]; exact ht)
    · intro ht h2
      have hst := progRun_flashOn_pulse _ (f1.trans hpr) (by rw [f4]; exact ht)
        (f3.trans h2)
      exact ⟨hst.1, by rw [hst.2, f6]⟩
    · intro ht h2
      have hst := progRun_flashOn_stay _ (f1.trans hpr) (by rw [f4]; exact ht)
        (f3.trans h2)
      rw [hst, f1]; exact hpr
  · intro s p hpr hr h1
    obtain ⟨f1, f2, f3, f4, f5, f6, f7, f8, f9⟩ := gateFacts s p hr h1
    rw [pollStep_gate_eq s p hr h1]
    refine ⟨?_, ?_⟩
    · intro ht
      exact progRun_flashOff_abort _ (f1.trans hpr) (by rw [f5]; exact ht)
    · intro ht h2
      refine ⟨?_, ?_, ?_⟩
      · intro h4
        exact progRun_flashOff_endOn _ (f1.trans hpr) (by rw [f5]; exact ht)
          (f3.trans h2) (by rw [f5]; exact h4)
      · intro h4 h3
        exact progRun_flashOff_reject _ (f1.trans hpr) (by rw [f5]; exact ht)
          (f3.trans h2) (by rw [f5]; exact h4) (by rw [f5]; exact h3)
      · intro h3
        exact progRun_flashOff_again _ (f1.trans hpr) (by rw [f5]; exact ht)
          (f3.trans h2) (by rw [f5]; exact h3)

/-- Witness for C4 at concrete inputs: a poll 500 ms into the primary ON run
with the secondary ON starts the sequence (FlashOn, flash_count zeroed); a
poll seeing the secondary OFF 450 ms later counts the flash (FlashOff,
flash_count 1); and a poll seeing the secondary ON again after a 4950 ms
gap moves to EndOn. -/
theorem C4_prog_flash_phase_witness :
    ((pollStep { initState 30 with
        power := PowerSM.outOn,
        chan1 := { last := true, onStart := 0, offStart := 0, armed := none },
        chan2 := { last := true, onStart := 100, offStart := 0, armed := none } }
        ⟨500, true, true⟩).prog = ProgSM.flashOn
      ∧ (pollStep { initState 30 with
        power := PowerSM.outOn,
        chan1 := { last := true, onStart := 0, offStart := 0, armed := none },
        chan2 := { last := true, onStart := 100, offStart := 0, armed := none } }
        ⟨500, true, true⟩).flashCount = 0)
    ∧ ((pollStep { initState 30 with
        power := PowerSM.outOn, prog := ProgSM.flashOn,
        chan1 := { last := true, onStart := 0, offStart := 0, armed := none },
        chan2 := { last := false, onStart := 100, offStart := 1100, armed := none },
        acc2OnTime := 1000 }
        ⟨1550, true, false⟩).prog = ProgSM.flashOff
      ∧ (pollStep { initState 30 with
        power := PowerSM.outOn, prog := ProgSM.flashOn,
        chan1 := { last := true, onStart := 0, offStart := 0, armed := none },
        chan2 := { last := false, onStart := 100, offStart := 1100, armed := none },
        acc2OnTime := 1000 }
        ⟨1550, true, false⟩).flashCount
        = (({ initState 30 with
        power := PowerSM.outOn, prog := ProgSM.flashOn,
        chan1 := { last := true, onStart := 0, offStart := 0, armed := none },
        chan2 := { last := false, onStart := 100, offStart := 1100, armed := none },
        acc2OnTime := 1000 } : SysState).flashCount + 1) % 256)
    ∧ (pollStep { initState 30 with
        power := PowerSM.outOn, prog := ProgSM.flashOff,
        chan1 := { last := true, onStart := 0, offStart := 0, armed := none },
        chan2 := { last := true, onStart := 6050, offStart := 1100, armed := none },
        acc2OffTime := 4950 }
        ⟨6100, true, true⟩).prog = ProgSM.endOn := by
  refine ⟨?_, ?_, ?_⟩
  · exact (C4_prog_flash_phase.1 _ ⟨500, true, true⟩ rfl (by decide)).2
      ((C4_prog_flash_phase.1 _ ⟨500, true, true⟩ rfl (by decide)).1.mpr
        ⟨rfl, by decide, rfl⟩)
  · exact (C4_prog_flash_phase.2.1 _ ⟨1550, true, false⟩ rfl (by decide) rfl).2.1
      (by decide) rfl
  · exact ((C4_prog_flash_phase.2.2 _ ⟨6100, true, true⟩ rfl (by decide) rfl).2
      (by decide) rfl).1 (by decide)

set_option maxRecDepth 40000 in
/-- C5 (amended): when EndOff sees the secondary turn ON with an OFF
duration in (4000, 7000] ms, the protocol is confirmed: flash_count is
clamped to at most 25, multiplied by 10, written to the EEPROM byte and to
in-RAM wait_minutes, and the phase becomes IndOn.  Because flash_count is
an 8-bit counter the persisted value is 10 times the pulse count mod 256
clamped to 25: it is a multiple of 10 in [10, 250] whenever that residue is
nonzero (1 to 255 pulses), and in particular both 25 and 30 flash pulses
persist 250; 256 pulses wrap flash_count to 0 and persist 0. -/
theorem C5_confirm_persist :
    (∀ (s : SysState) (p : Poll), s.prog = ProgSM.endOff → s.power ≠ PowerSM.reset →
      s.chan1.last = true → s.chan2.last = true →
      ¬(updateTimes s (p.tick % 65536)).acc2OffTime > 7000 →
      (updateTimes s (p.tick % 65536)).acc2OffTime > 4000 →
      (pollStep s p).prog = ProgSM.indOn
      ∧ (pollStep s p).persistLog
          = s.persistLog ++ [(if s.flashCount > 25 then 25 else s.flashCount) * 10]
      ∧ (pollStep s p).eeprom = (if s.flashCount > 25 then 25 else s.flashCount) * 10
      ∧ (pollStep s p).waitMinutes = (if s.flashCount > 25 then 25 else s.flashCount) * 10)
    ∧ (∀ fc : Nat, 1 ≤ fc → fc ≤ 255 →
      10 ≤ (if fc > 25 then 25 else fc) * 10
      ∧ (if fc > 25 then 25 else fc) * 10 ≤ 250
      ∧ (if fc > 25 then 25 else fc) * 10 % 10 = 0)
    ∧ (run (initState 30) (progTrace 25)).persistLog = [250]
    ∧ (run (initState 30) (progTrace 30)).persistLog = [250] := by
  refine ⟨?_, ?_, rfl, rfl⟩
  · intro s p hpr hr h1 h2 ht h4
    obtain ⟨f1, f2, f3, f4, f5, f6, f7, f8, f9⟩ := gateFacts s p hr h1
    rw [pollStep_gate_eq s p hr h1]
    have hst := progRun_endOff_confirm _ (f1.trans hpr) (by rw [f5]; exact ht)
      (f3.trans h2) (by rw [f5]; exact h4)
    refine ⟨hst.1, ?_, ?_, ?_⟩
    · rw [hst.2.1, f7, f6]
    · rw [hst.2.2.1, f6]
    · rw [hst.2.2.2, f6]
  · intro fc hlo hhi
    refine ⟨?_, ?_, ?_⟩
    · split <;> omega
    · split <;> omega
    · exact Nat.mul_mod_left _ 10

/-- Witness for C5 at concrete inputs: an EndOff poll seeing the secondary
ON with a stale 4400 ms OFF time and flash_count = 30 confirms, persisting
250 (clamped) to the EEPROM byte and wait_minutes; and 30 satisfies the
range statement. -/
theorem C5_confirm_persist_witness :
    ((pollStep { initState 30 with
        power := PowerSM.outOn, prog := ProgSM.endOff, flashCount := 30,
        chan1 := { last := true, onStart := 0, offStart := 0, armed := none },
        chan2 := { last := true, onStart := 6050, offStart := 1100, armed := none },
        acc2OffTime := 4400 }
        ⟨6100, true, true⟩).prog = ProgSM.indOn
      ∧ (pollStep { initState 30 with
        power := PowerSM.outOn, prog := ProgSM.endOff, flashCount := 30,
        chan1 := { last := true, onStart := 0, offStart := 0, armed := none },
        chan2 := { last := true, onStart := 6050, offStart := 1100, armed := none },
        acc2OffTime := 4400 }
        ⟨6100, true, true⟩).persistLog
        = ({ initState 30 with
        power := PowerSM.outOn, prog := ProgSM.endOff, flashCount := 30,
        chan1 := { last := true, onStart := 0, offStart := 0, armed := none },
        chan2 := { last := true, onStart := 6050, offStart := 1100, armed := none },
        acc2OffTime := 4400 } : SysState).persistLog ++ [(if 30 > 25 then 25 else 30) * 10]
      ∧ (pollStep { initState 30 with
        power := PowerSM.outOn, prog := ProgSM.endOff, flashCount := 30,
        chan1 := { last := true, onStart := 0, offStart := 0, armed := none },
        chan2 := { last := true, onStart := 6050, offStart := 1100, armed := none },
        acc2OffTime := 4400 }
        ⟨6100, true, true⟩).eeprom = (if 30 > 25 then 25 else 30) * 10
      ∧ (pollStep { initState 30 with
        power := PowerSM.outOn, prog := ProgSM.endOff, flashCount := 30,
        chan1 := { last := true, onStart := 0, offStart := 0, armed := none },
        chan2 := { last := true, onStart := 6050, offStart := 1100, armed := none },
        acc2OffTime := 4400 }
        ⟨6100, true, true⟩).waitMinutes = (if 30 > 25 then 25 else 30) * 10)
    ∧ (10 ≤ (if 30 > 25 then 25 else 30) * 10
      ∧ (if 30 > 25 then 25 else 30) * 10 ≤ 250
      ∧ (if 30 > 25 then 25 else 30) * 10 % 10 = 0) :=
  ⟨C5_confirm_persist.1 _ ⟨6100, true, true⟩ rfl (by decide) rfl rfl (by decide) (by decide),
   C5_confirm_persist.2.1 30 (by decide) (by decide)⟩

theorem run_append (s : SysState) (a b : List Ev) : run s (a ++ b) = run (run s a) b :=
  List.foldl_append step s a b

theorem progTrace256_decomp :
    progTrace 256
      = bootEvs ++ (chunkEvs 0 50 ++ (chunkEvs 50 50 ++ (chunkEvs 100 50 ++
        (chunkEvs 150 50 ++ (chunkEvs 200 50 ++ (chunkEvs 250 6
          ++ confirmEvs (1000 + 2000 * 256))))))) := by
  have h1 : List.range' 0 256 = List.range' 0 50 ++ List.range' 50 206 := by
    have h := List.range'_append 0 50 206 1
    simpa using h.symm
  have h2 : List.range' 50 206 = List.range' 50 50 ++ List.range' 100 156 := by
    have h := List.range'_append 50 50 156 1
    simpa using h.symm
  have h3 : List.range' 100 156 = List.range' 100 50 ++ List.range' 150 106 := by
    have h := List.range'_append 100 50 106 1
    simpa using h.symm
  have h4 : List.range' 150 106 = List.range' 150 50 ++ List.range' 200 56 := by
    have h := List.range'_append 150 50 56 1
    simpa using h.symm
  have h5 : List.range' 200 56 = List.range' 200 50 ++ List.range' 250 6 := by
    have h := List.range'_append 200 50 6 1
    simpa using h.symm
  simp only [progTrace, chunkEvs, List.range_eq_range', h1, h2, h3, h4, h5,
    List.map_append, List.flatten_append, List.append_assoc]

theorem runBoot : run (initState 30) bootEvs = midBoot := rfl

set_option maxRecDepth 60000 in
set_option maxHeartbeats 2000000 in
theorem runSeg1 : run midBoot (chunkEvs 0 50) = mid50 := rfl

set_option maxRecDepth 60000 in
set_option maxHeartbeats 2000000 in
theorem runSeg2 : run mid50 (chunkEvs 50 50) = mid100 := rfl

set_option maxRecDepth 60000 in
set_option maxHeartbeats 2000000 in
theorem runSeg3 : run mid100 (chunkEvs 100 50) = mid150 := rfl

set_option maxRecDepth 60000 in
set_option maxHeartbeats 2000000 in
theorem runSeg4 : run mid150 (chunkEvs 150 50) = mid200 := rfl

set_option maxRecDepth 60000 in
set_option maxHeartbeats 2000000 in
theorem runSeg5 : run mid200 (chunkEvs 200 50) = mid250 := rfl

set_option maxRecDepth 60000 in
set_option maxHeartbeats 2000000 in
theorem runSeg6 : run mid250 (chunkEvs 250 6) = mid256 := rfl

set_option maxRecDepth 40000 in
set_option maxHeartbeats 1000000 in
theorem runConfirm256 :
    (run mid256 (confirmEvs (1000 + 2000 * 256))).persistLog = [0] := rfl

/-- Counterexample for C5 as stated: 256 valid flash pulses wrap the 8-bit
flash_count to 0, so the confirmed protocol persists the single value 0 —
not a value in [10, 250]. -/
theorem C5_confirm_persist_counterexample :
    (run (initState 30) (progTrace 256)).persistLog = [0] ∧ ¬10 ≤ 0 := by
  constructor
  · rw [progTrace256_decomp, run_append, run_append, run_append, run_append, run_append,
      run_append, run_append, runBoot, runSeg1, runSeg2, runSeg3, runSeg4, runSeg5, runSeg6]
    exact runConfirm256
  · decide
